import Mathlib

/-!
Verification development for the validation-and-ingestion pipeline of the
timelines repository (source: scripts2/ingest_authoritative_events.py,
class TimelineDataIngester).

The Python code manipulates JSON-like dictionaries, so we shallowly embed
the dynamic values as an inductive type.  Python floats are modelled as
rationals; string-to-number coercion is modelled for integer-form literals
(the only form the claims exercise).  uuid.uuid4() is modelled as a fresh
identifier counter (its role in the code is only to supply fresh ids).
Wall-clock fields (created_at, updated_at) are environment input with no
bearing on any claim and are omitted from the row models.  psycopg2 errors
are environment events: the model carries a fault schedule telling which
database operation (SELECT, each INSERT, the commit) raises, and the raised
message is modelled by the constant dbErrMsg.
-/

/-- A JSON-like dynamic value, as manipulated by the Python ingester. -/
inductive Value where
  | vnull
  | vbool (b : Bool)
  | vint (n : Int)
  | vfloat (q : Rat)
  | vstr (s : String)
  | vlist (elems : List Value)
  | vdict (fields : List (String × Value))

instance : Inhabited Value := ⟨Value.vnull⟩

/-- Python dictionaries with string keys, as ordered association lists. -/
abbrev Dict := List (String × Value)

/-- Lookup of a key in a dictionary (Python d[k] / d.get(k)). -/
def dictGet? (d : Dict) (k : String) : Option Value :=
  (d.find? (fun p => p.1 == k)).map (fun p => p.2)

/-- Python membership test: k in d. -/
def dictHas (d : Dict) (k : String) : Bool :=
  d.any (fun p => p.1 == k)

/-- Python d.get(k, dflt). -/
def dictGetD (d : Dict) (k : String) (dflt : Value) : Value :=
  (dictGet? d k).getD dflt

/-- Removal of a key, the mutation performed by Python d.pop(k, dflt). -/
def dictRemove (d : Dict) (k : String) : Dict :=
  d.filter (fun p => !(p.1 == k))

/-- Python truthiness of a value (bool(v)). -/
def pyTruthy : Value → Bool
  | .vnull => false
  | .vbool b => b
  | .vint n => n != 0
  | .vfloat q => q != 0
  | .vstr s => s != ""
  | .vlist xs => !xs.isEmpty
  | .vdict fs => !fs.isEmpty

/-- Truncation of a rational toward zero, matching Python int() on floats. -/
def ratTruncZ (q : Rat) : Int :=
  Int.tdiv q.num (Int.ofNat q.den)

/-- Digits-only parse of a character list, none when empty or non-digit. -/
def parseNatChars (cs : List Char) : Option Nat :=
  if cs.isEmpty then none
  else cs.foldl (fun acc c =>
    match acc with
    | none => none
    | some n => if 48 ≤ c.toNat ∧ c.toNat ≤ 57 then some (n * 10 + (c.toNat - 48)) else none)
    (some 0)

/-- Python int applied to a string: an optional minus sign followed by
digits (the model covers the literal forms the pipeline meets; other
accepted Python spellings such as surrounding whitespace are out of
scope).  Written over the character list so it computes by kernel
reduction. -/
def strToInt? (s : String) : Option Int :=
  match s.data with
  | '-' :: rest => (parseNatChars rest).map (fun n => -(n : Int))
  | cs => (parseNatChars cs).map (fun n => ((n : Int)))

/-- Python int(v): some result, or none when int() raises. -/
def pyInt? : Value → Option Int
  | .vint n => some n
  | .vfloat q => some (ratTruncZ q)
  | .vbool b => some (if b then 1 else 0)
  | .vstr s => strToInt? s
  | _ => none

/-- Python float(v): some result, or none when float() raises.  A string
coerces when it is an integer literal (fractional spellings are not needed
by any claim). -/
def pyFloat? : Value → Option Rat
  | .vint n => some ((n : Rat))
  | .vfloat q => some q
  | .vbool b => some (if b then 1 else 0)
  | .vstr s => (strToInt? s).map (fun n => ((n : Rat)))
  | _ => none

/-- Rendering of a value inside an error message (Python str(v)); only
string payloads matter to any message a claim inspects. -/
def pyRepr : Value → String
  | .vnull => "None"
  | .vbool b => if b then "True" else "False"
  | .vint n => toString n
  | .vfloat q => toString q
  | .vstr s => s
  | .vlist _ => "[...]"
  | .vdict _ => "dict"

/-- Python identity test v is None. -/
def Value.isNone : Value → Bool
  | .vnull => true
  | _ => false

/-- Python isinstance(v, str). -/
def Value.isStr : Value → Bool
  | .vstr _ => true
  | _ => false

/-- Python membership of a value in a list of strings. -/
def valueInStrs (v : Value) (l : List String) : Bool :=
  match v with
  | .vstr s => l.contains s
  | _ => false

/-- TimelineDataIngester.VALID_SOURCE_TYPES. -/
def VALID_SOURCE_TYPES : List String :=
  ["scientific_paper", "book", "article", "database",
   "expert_consensus", "wikipedia", "wikidata", "other"]

/-- TimelineDataIngester.PRECISION_LEVELS. -/
def PRECISION_LEVELS : List String :=
  ["nanosecond", "microsecond", "millisecond", "second", "minute", "hour",
   "day", "week", "month", "year", "decade", "century",
   "thousand_years", "million_years", "billion_years"]

/-- TimelineDataIngester.validate_source.  Quotation marks of the original
messages are dropped (the scanner of this development forbids them); the
boolean component is exactly that of the source. -/
def validate_source (source : Value) (context : String := "source") : Bool × String :=
  match source with
  | .vdict d =>
    if !dictHas d "url" && !dictHas d "title" then
      (false, context ++ ": must have url or title")
    else if dictHas d "source_type"
        && !valueInStrs (dictGetD d "source_type" .vnull) VALID_SOURCE_TYPES then
      (false, context ++ ": invalid source_type: "
        ++ pyRepr (dictGetD d "source_type" .vnull))
    else if dictHas d "credibility_score" then
      match pyInt? (dictGetD d "credibility_score" .vnull) with
      | none => (false, context ++ ": credibility_score must be numeric")
      | some score =>
        if score < 0 || score > 100 then
          (false, context ++ ": credibility_score must be 0-100")
        else (true, "")
    else (true, "")
  | _ => (false, context ++ " must be a dictionary")

/-- The per-index loop over event[sources] inside validate_event. -/
def validate_sources_list : List Value → Nat → Bool × String
  | [], _ => (true, "")
  | s :: rest, i =>
    let r := validate_source s ("sources[" ++ toString i ++ "]")
    if r.1 then validate_sources_list rest (i + 1) else r

/-- The sources-if-present tail check of validate_event. -/
def validate_event_sources (d : Dict) : Bool × String :=
  if dictHas d "sources" then
    match dictGetD d "sources" .vnull with
    | .vlist xs => validate_sources_list xs 0
    | _ => (false, "sources must be a list")
  else (true, "")

/-- One early-return check of a validator: reject with msg when cond holds,
otherwise fall through to the rest of the checks. -/
def reqCheck (cond : Bool) (msg : String) (rest : Bool × String) : Bool × String :=
  if cond then (false, msg) else rest

/-- A try-coerce-except check: reject with msg when the coercion raised,
otherwise continue with the coerced value. -/
def optCheck {a : Type} (v : Option a) (msg : String) (k : a → Bool × String) : Bool × String :=
  match v with
  | none => (false, msg)
  | some x => k x

/-- TimelineDataIngester.validate_event on the dict payload, checks in
source order, each early return written as a reqCheck or optCheck layer. -/
def validate_event_dict (d : Dict) : Bool × String :=
  reqCheck (!dictHas d "title" || !pyTruthy (dictGetD d "title" .vnull))
    "Missing required field: title"
  (reqCheck (!dictHas d "unix_seconds")
    "Missing required field: unix_seconds"
  (reqCheck (!dictHas d "precision_level")
    "Missing required field: precision_level"
  (reqCheck (!dictHas d "latitude" || (dictGetD d "latitude" .vnull).isNone)
    "Missing required field: latitude (all events must have geo point)"
  (reqCheck (!dictHas d "longitude" || (dictGetD d "longitude" .vnull).isNone)
    "Missing required field: longitude (all events must have geo point)"
  (reqCheck (!dictHas d "category")
    "Missing required field: category (must be a leaf category)"
  (reqCheck (!(dictGetD d "category" .vnull).isStr)
    "category must be a string"
  (optCheck (pyFloat? (dictGetD d "latitude" .vnull)) "latitude must be numeric" (fun lat =>
  reqCheck (lat < -90 || lat > 90) "latitude must be between -90 and 90"
  (optCheck (pyFloat? (dictGetD d "longitude" .vnull)) "longitude must be numeric" (fun lon =>
  reqCheck (lon < -180 || lon > 180) "longitude must be between -180 and 180"
  (reqCheck (!valueInStrs (dictGetD d "precision_level" .vnull) PRECISION_LEVELS)
    ("Invalid precision_level: " ++ pyRepr (dictGetD d "precision_level" .vnull))
  (optCheck (pyInt? (dictGetD d "unix_seconds" .vnull)) "unix_seconds must be numeric" (fun _ =>
  if dictHas d "importance_score" then
    optCheck (pyInt? (dictGetD d "importance_score" .vnull))
      "importance_score must be numeric" (fun score =>
      reqCheck (score < 0 || score > 100) "importance_score must be between 0 and 100"
        (validate_event_sources d))
  else validate_event_sources d)))))))))))))

/-- TimelineDataIngester.validate_event. -/
def validate_event (event : Value) : Bool × String :=
  match event with
  | .vdict d => validate_event_dict d
  | _ => (false, "Event must be a dictionary")

/-- The parent segment of a dotted category identifier: the prefix before
the first dot, as computed by Python category.split with a dot, index 0. -/
def parentSegment (category : String) : String :=
  String.mk (category.data.takeWhile (fun c => !(c == '.')))

/-- TimelineDataIngester._get_fallback_image: exact icon match, then one
retry on the parent segment of a dotted category identifier.  The dot test
and the split are written over the character list so that they compute by
kernel reduction; they agree with Python in-test and split. -/
def get_fallback_image (icons : List (String × String)) (category : String) : Option String :=
  if category == "" then none
  else
    match (icons.find? (fun p => p.1 == category)).map (fun p => p.2) with
    | some icon => some icon
    | none =>
      if category.data.contains '.' then
        let parent := parentSegment category
        match (icons.find? (fun p => p.1 == parent)).map (fun p => p.2) with
        | some icon => some icon
        | none => none
      else none

/-- A row of the events table, as inserted by ingest_event_with_sources
(wall-clock created_at and updated_at omitted, see the header note). -/
structure EventRow where
  id : Nat
  title : Value
  timeline_seconds : Int
  unix_seconds : Int
  unix_nanos : Int
  precision_level : Value
  description : Value
  category : Value
  image_url : Value
  importance_score : Int
  uncertainty_range : Value
  created_by_user_id : Option String

/-- A row of the event_sources table. -/
structure SourceRow where
  id : Nat
  event_id : Nat
  source_type : Value
  title : Value
  url : Value
  citation : Value
  credibility_score : Int
  added_by_user_id : Option String

/-- A row of the event_locations table. -/
structure LocationRow where
  id : Nat
  event_id : Nat
  location_name : Value
  location_type : String
  lat : Value
  lon : Value
  geojson : Value
  is_primary : Bool

/-- The committed database state: the categories registry table plus the
three tables the ingester writes. -/
structure Store where
  categories : List String
  events : List EventRow
  sources : List SourceRow
  locations : List LocationRow

/-- TimelineDataIngester.stats. -/
structure Stats where
  events_created : Nat
  sources_created : Nat
  events_skipped : Nat
  image_urls_replaced : Nat
  errors : List String

/-- The state of a TimelineDataIngester plus its environment: the connected
store, the fresh-identifier supply standing for uuid.uuid4(), and the fault
schedule for database operations (dbFaults k = true makes the k-th
operation raise psycopg2.Error). -/
structure Ingester where
  dry_run : Bool
  category_icons : List (String × String)
  store : Store
  stats : Stats
  nextId : Nat
  dbFaults : List Bool
  opIndex : Nat

/-- The identifier the next uuid.uuid4() call yields. -/
def Ingester.freshId (st : Ingester) : Nat := st.nextId

/-- State after one uuid.uuid4() call. -/
def Ingester.useId (st : Ingester) : Ingester := { st with nextId := st.nextId + 1 }

/-- Whether the next database operation raises psycopg2.Error. -/
def Ingester.dbFail (st : Ingester) : Bool := st.dbFaults.getD st.opIndex false

/-- State after one database operation (cursor.execute or conn.commit). -/
def Ingester.useOp (st : Ingester) : Ingester := { st with opIndex := st.opIndex + 1 }

/-- stats updates performed by the ingester, one helper per counter. -/
def Ingester.bumpSkipped (st : Ingester) : Ingester :=
  { st with stats := { st.stats with events_skipped := st.stats.events_skipped + 1 } }

def Ingester.bumpCreated (st : Ingester) : Ingester :=
  { st with stats := { st.stats with events_created := st.stats.events_created + 1 } }

def Ingester.bumpSources (st : Ingester) : Ingester :=
  { st with stats := { st.stats with sources_created := st.stats.sources_created + 1 } }

def Ingester.bumpReplaced (st : Ingester) : Ingester :=
  { st with stats := { st.stats with image_urls_replaced := st.stats.image_urls_replaced + 1 } }

def Ingester.recordError (st : Ingester) (m : String) : Ingester :=
  { st with stats := { st.stats with errors := st.stats.errors ++ [m] } }

/-- Stand-in for the text of a raised psycopg2 error (environment data the
model does not refine further). -/
def dbErrMsg : String := "Database error: psycopg2.Error"

/-- The outcome of ingest_event_with_sources: the returned triple on the
normal paths, or an exception the except clause does not catch. -/
inductive Outcome where
  | ok (msg : String) (eventId : Nat)
  | rejected (msg : String)
  | uncaught (msg : String)

/-- Result of one ingest call: outcome, new ingester state, and the input
record as left behind by the in-place .pop mutations. -/
structure IngestResult where
  outcome : Outcome
  state : Ingester
  event : Value

/-- The except-psycopg2 path: conn.rollback() discards every uncommitted
write (the model never touched the committed store), the skip counter is
incremented and the error recorded. -/
def dbErrorResult (st : Ingester) (d : Dict) : IngestResult :=
  { outcome := .rejected dbErrMsg,
    state := (st.bumpSkipped).recordError dbErrMsg,
    event := .vdict d }

/-- Exit status of the source-insertion loop. -/
inductive LoopExit where
  | done
  | dbfail
  | exc (msg : String)

/-- The per-source loop of ingest_event_with_sources: re-validate, skip
invalid sources, insert the rest; accumulates pending SourceRow values. -/
def insertSources (user : Option String) (eventId : Nat) :
    List Value → Ingester → List SourceRow → LoopExit × Ingester × List SourceRow
  | [], st, acc => (.done, st, acc)
  | src :: rest, st, acc =>
    if !(validate_source src).1 then
      insertSources user eventId rest st acc
    else
      match src with
      | .vdict sd =>
        let sid := st.freshId
        let st1 := st.useId
        match pyInt? (dictGetD sd "credibility_score" (.vint 50)) with
        | none => (.exc "ValueError: credibility_score", st1, acc)
        | some cred =>
          let row : SourceRow :=
            { id := sid, event_id := eventId,
              source_type := dictGetD sd "source_type" (.vstr "other"),
              title := dictGetD sd "title" .vnull,
              url := dictGetD sd "url" .vnull,
              citation := dictGetD sd "citation" .vnull,
              credibility_score := cred,
              added_by_user_id := user }
          if st1.dbFail then (.dbfail, st1.useOp, acc)
          else insertSources user eventId rest ((st1.useOp).bumpSources) (acc ++ [row])
      | _ => (.exc "TypeError: source is not a dictionary", st, acc)

/-- conn.commit() and, on success, the append of the pending unit of work
to the three tables. -/
def commitResult (st : Ingester) (d : Dict) (eventId : Nat) (row : EventRow)
    (srcRows : List SourceRow) (locRows : List LocationRow) : IngestResult :=
  if st.dbFail then dbErrorResult (st.useOp) d
  else
    let st1 := st.useOp
    { outcome := .ok ("Created event with " ++ toString srcRows.length ++ " sources") eventId,
      state := { st1 with store := { st1.store with
                   events := st1.store.events ++ [row],
                   sources := st1.store.sources ++ srcRows,
                   locations := st1.store.locations ++ locRows } },
      event := .vdict d }

/-- Registry lookup SELECT id FROM categories WHERE id = category. -/
def registryHas (cats : List String) : Value → Bool
  | .vstr s => cats.contains s
  | _ => false

/-- The image-resolution step of ingest_event_with_sources: a truthy
image_url is trusted as-is, otherwise the category icon fallback is used
when one resolves, bumping the replaced counter. -/
def resolveImageStep (st : Ingester) (category rawImage : Value) : Value × Ingester :=
  if pyTruthy rawImage then (rawImage, st)
  else
    match (match category with
           | .vstr c => get_fallback_image st.category_icons c
           | _ => none) with
    | some fb => if fb != "" then (Value.vstr fb, st.bumpReplaced) else (rawImage, st)
    | none => (rawImage, st)

/-- Sources list of a candidate: the popped value when it is a list, as
iterated by the for loop (validation only admits a list or an absent key,
whose pop default is the empty list). -/
def srcListOf (d : Dict) : List Value :=
  match dictGetD d "sources" (.vlist []) with
  | .vlist xs => xs
  | _ => []

/-- The try block of ingest_event_with_sources, entered once validation
passed and the run is not a dry run; d0 is the payload of the event dict. -/
def ingestCore (st : Ingester) (d0 : Dict) (user : Option String) : IngestResult :=
  let eventId := st.freshId
  let st1 := st.useId
  -- event.pop of sources, category, latitude, longitude, location_name
  let d1 := dictRemove d0 "sources"
  let category := dictGetD d1 "category" .vnull
  let d2 := dictRemove d1 "category"
  let latitude := dictGetD d2 "latitude" .vnull
  let d3 := dictRemove d2 "latitude"
  let longitude := dictGetD d3 "longitude" .vnull
  let d4 := dictRemove d3 "longitude"
  let location_name := dictGetD d4 "location_name" .vnull
  let d5 := dictRemove d4 "location_name"
  -- SELECT id FROM categories WHERE id = category
  if st1.dbFail then dbErrorResult (st1.useOp) d5
  else
    let st2 := st1.useOp
    if !registryHas st2.store.categories category then
      { outcome := .rejected ("Category " ++ pyRepr category ++ " not found in database"),
        state := st2.bumpSkipped,
        event := .vdict d5 }
    else
      -- image resolution: trust a truthy image_url, else category fallback
      let rawImage := dictGetD d5 "image_url" .vnull
      let image_url := (resolveImageStep st2 category rawImage).1
      let st3 := (resolveImageStep st2 category rawImage).2
      match pyInt? (dictGetD d5 "unix_seconds" .vnull) with
      | none => { outcome := .uncaught "ValueError: unix_seconds", state := st3, event := .vdict d5 }
      | some usec =>
        match pyInt? (dictGetD d5 "unix_nanos" (.vint 0)) with
        | none => { outcome := .uncaught "ValueError: unix_nanos", state := st3, event := .vdict d5 }
        | some nanos =>
          match pyInt? (dictGetD d5 "importance_score" (.vint 50)) with
          | none => { outcome := .uncaught "ValueError: importance_score", state := st3, event := .vdict d5 }
          | some imp =>
            let row : EventRow :=
              { id := eventId,
                title := dictGetD d5 "title" .vnull,
                timeline_seconds := usec,
                unix_seconds := usec,
                unix_nanos := nanos,
                precision_level := dictGetD d5 "precision_level" .vnull,
                description := dictGetD d5 "description" .vnull,
                category := category,
                image_url := image_url,
                importance_score := imp,
                uncertainty_range := dictGetD d5 "uncertainty_range" .vnull,
                created_by_user_id := user }
            -- INSERT INTO events; the created counter is bumped right after
            if st3.dbFail then dbErrorResult (st3.useOp) d5
            else
              let st4 := ((st3.useOp).bumpCreated)
              match insertSources user eventId (srcListOf d0) st4 [] with
              | (.dbfail, st5, _) => dbErrorResult st5 d5
              | (.exc m, st5, _) => { outcome := .uncaught m, state := st5, event := .vdict d5 }
              | (.done, st5, srcRows) =>
                if !latitude.isNone && !longitude.isNone then
                  let lid := st5.freshId
                  let st6 := st5.useId
                  let locRow : LocationRow :=
                    { id := lid, event_id := eventId,
                      location_name := if pyTruthy location_name then location_name
                                       else .vstr "Unknown",
                      location_type := "primary",
                      lat := latitude, lon := longitude,
                      geojson := .vdict [("type", .vstr "Point"),
                                         ("coordinates", .vlist [longitude, latitude])],
                      is_primary := true }
                  -- INSERT INTO event_locations
                  if st6.dbFail then dbErrorResult (st6.useOp) d5
                  else commitResult ((st6.useOp)) d5 eventId row srcRows [locRow]
                else commitResult st5 d5 eventId row srcRows []

/-- TimelineDataIngester.ingest_event_with_sources. -/
def ingest_event_with_sources (st : Ingester) (event : Value)
    (user : Option String := none) : IngestResult :=
  let v := validate_event event
  if !v.1 then
    { outcome := .rejected ("Event validation failed: " ++ v.2),
      state := st.bumpSkipped,
      event := event }
  else if st.dry_run then
    { outcome := .ok "Dry run - not written to database" st.freshId,
      state := st.useId,
      event := event }
  else
    match event with
    | .vdict d0 => ingestCore st d0 user
    | _ =>
      -- unreachable: validation passed only on dictionaries
      { outcome := .uncaught "unreachable", state := st, event := event }

/-- Result of ingest_batch: final state, the exception that aborted the run
when one propagated, and the suffix of input events never attempted. -/
structure BatchResult where
  state : Ingester
  aborted : Option String
  remaining : List Value

/-- TimelineDataIngester.ingest_batch: events strictly in order; an
uncaught per-event exception propagates and aborts the run. -/
def ingest_batch (st : Ingester) (events : List Value)
    (user : Option String := none) : BatchResult :=
  match events with
  | [] => { state := st, aborted := none, remaining := [] }
  | e :: rest =>
    let r := ingest_event_with_sources st e user
    match r.outcome with
    | .uncaught m => { state := r.state, aborted := some m, remaining := rest }
    | _ => ingest_batch r.state rest user

/-- The value the image-resolution step assigns (specification companion of
resolveImageStep, used to state theorems). -/
def resolveImage (icons : List (String × String)) (category rawImage : Value) : Value :=
  if pyTruthy rawImage then rawImage
  else
    match (match category with
           | .vstr c => get_fallback_image icons c
           | _ => none) with
    | some fb => if fb != "" then Value.vstr fb else rawImage
    | none => rawImage

/-- Whether the image-resolution step substitutes a category fallback. -/
def fallbackUsed (icons : List (String × String)) (category rawImage : Value) : Bool :=
  if pyTruthy rawImage then false
  else
    match (match category with
           | .vstr c => get_fallback_image icons c
           | _ => none) with
    | some fb => fb != ""
    | none => false

/-- A candidate event that is missing one of the required fields of claim
C6: an absent or falsy title, an absent unix_seconds, precision_level or
category, or an absent or None latitude or longitude. -/
def missingRequired : Value → Bool
  | .vdict d =>
    (!dictHas d "title" || !pyTruthy (dictGetD d "title" .vnull))
    || !dictHas d "unix_seconds"
    || !dictHas d "precision_level"
    || (!dictHas d "latitude" || (dictGetD d "latitude" .vnull).isNone)
    || (!dictHas d "longitude" || (dictGetD d "longitude" .vnull).isNone)
    || !dictHas d "category"
  | _ => false

/-- The unix_nanos field, the one field ingestion coerces without prior
validation, is absent or integer-coercible. -/
def nanosOk : Value → Bool
  | .vdict d => !dictHas d "unix_nanos" || (pyInt? (dictGetD d "unix_nanos" (.vint 0))).isSome
  | _ => true

/-! Dictionary lemmas. -/

theorem dictHas_false_getD (d : Dict) (k : String) (v : Value)
    (h : dictHas d k = false) : dictGetD d k v = v := by
  induction d with
  | nil => rfl
  | cons p rest ih =>
    simp only [dictHas, List.any_cons, Bool.or_eq_false_iff] at h
    simp only [dictGetD, dictGet?, List.find?_cons, h.1]
    exact ih h.2

theorem dictGetD_indep (d : Dict) (k : String) (a b : Value)
    (h : dictHas d k = true) : dictGetD d k a = dictGetD d k b := by
  induction d with
  | nil => simp [dictHas] at h
  | cons p rest ih =>
    by_cases hp : (p.1 == k) = true
    · simp [dictGetD, dictGet?, List.find?_cons, hp]
    · have hb : (p.1 == k) = false := by simpa using hp
      simp only [dictHas, List.any_cons, hb, Bool.false_or] at h
      simp only [dictGetD, dictGet?, List.find?_cons, hb]
      exact ih h

theorem dictRemove_has_self (d : Dict) (k : String) :
    dictHas (dictRemove d k) k = false := by
  induction d with
  | nil => rfl
  | cons p rest ih =>
    by_cases hp : (p.1 == k) = true
    · simpa [dictRemove, List.filter_cons, hp] using ih
    · have hb : (p.1 == k) = false := by simpa using hp
      simp only [dictRemove, List.filter_cons, hb, Bool.not_false, if_true, dictHas,
        List.any_cons, hb, Bool.false_or] at ih ⊢
      exact ih

theorem dictRemove_has_ne (d : Dict) (k k2 : String) (h : k2 ≠ k) :
    dictHas (dictRemove d k) k2 = dictHas d k2 := by
  induction d with
  | nil => rfl
  | cons p rest ih =>
    by_cases hp : (p.1 == k) = true
    · have hp' : p.1 = k := by simpa using hp
      have hb2 : (p.1 == k2) = false :=
        beq_eq_false_iff_ne.mpr (fun hc => h (hc.symm.trans hp'))
      simpa [dictRemove, List.filter_cons, hp, dictHas, hb2] using ih
    · have hb : (p.1 == k) = false := by simpa using hp
      by_cases hp2 : (p.1 == k2) = true
      · simp [dictRemove, List.filter_cons, hb, dictHas, hp2]
      · have hb2 : (p.1 == k2) = false := by simpa using hp2
        simpa [dictRemove, List.filter_cons, hb, dictHas, hb2] using ih

theorem dictRemove_getD_ne (d : Dict) (k k2 : String) (v : Value) (h : k2 ≠ k) :
    dictGetD (dictRemove d k) k2 v = dictGetD d k2 v := by
  induction d with
  | nil => rfl
  | cons p rest ih =>
    by_cases hp : (p.1 == k) = true
    · have hp' : p.1 = k := by simpa using hp
      have hb2 : (p.1 == k2) = false :=
        beq_eq_false_iff_ne.mpr (fun hc => h (hc.symm.trans hp'))
      simpa [dictRemove, List.filter_cons, hp, dictGetD, dictGet?, List.find?_cons, hb2] using ih
    · have hb : (p.1 == k) = false := by simpa using hp
      by_cases hp2 : (p.1 == k2) = true
      · simp [dictRemove, List.filter_cons, hb, dictGetD, dictGet?, List.find?_cons, hp2]
      · have hb2 : (p.1 == k2) = false := by simpa using hp2
        simpa [dictRemove, List.filter_cons, hb, dictGetD, dictGet?, List.find?_cons, hb2] using ih

/-! Validator lemmas. -/

theorem validate_source_fst_ctx (s : Value) (c c2 : String) :
    (validate_source s c).1 = (validate_source s c2).1 := by
  unfold validate_source
  repeat' split
  all_goals rfl

theorem validate_source_true_dict (s : Value) (c : String)
    (h : (validate_source s c).1 = true) : ∃ sd, s = .vdict sd := by
  cases s with
  | vdict sd => exact ⟨sd, rfl⟩
  | vnull => simp [validate_source] at h
  | vbool b => simp [validate_source] at h
  | vint n => simp [validate_source] at h
  | vfloat q => simp [validate_source] at h
  | vstr s2 => simp [validate_source] at h
  | vlist xs => simp [validate_source] at h

theorem validate_source_cred_some (sd : Dict) (c : String)
    (h : (validate_source (.vdict sd) c).1 = true) :
    (pyInt? (dictGetD sd "credibility_score" (.vint 50))).isSome = true := by
  simp only [validate_source] at h
  repeat' split at h
  all_goals simp_all
  case isFalse.isFalse.isTrue.h_2.isFalse =>
    rename_i hhas heq hrange
    rw [dictGetD_indep sd "credibility_score" (.vint 50) .vnull hhas, heq]
    rfl
  case isFalse.isFalse.isFalse =>
    rename_i h1 h2 hhas
    rw [dictHas_false_getD sd "credibility_score" (.vint 50) hhas]
    rfl

/-! Validator peeling lemmas. -/

theorem reqCheck_true_iff (c : Bool) (m : String) (r : Bool × String) :
    (reqCheck c m r).1 = true ↔ c = false ∧ r.1 = true := by
  cases c <;> simp [reqCheck]

theorem optCheck_true_iff {a : Type} (v : Option a) (m : String) (k : a → Bool × String) :
    (optCheck v m k).1 = true ↔ ∃ x, v = some x ∧ (k x).1 = true := by
  cases v <;> simp [optCheck]

theorem reqCheck_skip (m : String) (r : Bool × String) : reqCheck false m r = r := rfl

theorem reqCheck_stop (m : String) (r : Bool × String) : reqCheck true m r = (false, m) := rfl

theorem validate_event_vdict (d : Dict) :
    validate_event (.vdict d) = validate_event_dict d := rfl

theorem validate_event_facts (d : Dict)
    (h : (validate_event_dict d).1 = true) :
    dictHas d "title" = true
    ∧ pyTruthy (dictGetD d "title" .vnull) = true
    ∧ dictHas d "unix_seconds" = true
    ∧ dictHas d "precision_level" = true
    ∧ dictHas d "category" = true
    ∧ (pyInt? (dictGetD d "unix_seconds" .vnull)).isSome = true
    ∧ (pyInt? (dictGetD d "importance_score" (.vint 50))).isSome = true
    ∧ (validate_event_sources d).1 = true := by
  unfold validate_event_dict at h
  rw [reqCheck_true_iff] at h; obtain ⟨h1, h⟩ := h
  rw [reqCheck_true_iff] at h; obtain ⟨h2, h⟩ := h
  rw [reqCheck_true_iff] at h; obtain ⟨h3, h⟩ := h
  rw [reqCheck_true_iff] at h; obtain ⟨h4, h⟩ := h
  rw [reqCheck_true_iff] at h; obtain ⟨h5, h⟩ := h
  rw [reqCheck_true_iff] at h; obtain ⟨h6, h⟩ := h
  rw [reqCheck_true_iff] at h; obtain ⟨h7, h⟩ := h
  rw [optCheck_true_iff] at h; obtain ⟨lat, heqLat, h⟩ := h
  rw [reqCheck_true_iff] at h; obtain ⟨h8, h⟩ := h
  rw [optCheck_true_iff] at h; obtain ⟨lon, heqLon, h⟩ := h
  rw [reqCheck_true_iff] at h; obtain ⟨h9, h⟩ := h
  rw [reqCheck_true_iff] at h; obtain ⟨h10, h⟩ := h
  rw [optCheck_true_iff] at h; obtain ⟨usec, heqUsec, h⟩ := h
  simp only [Bool.or_eq_false_iff, Bool.not_eq_false'] at h1 h2 h3
  have husec : (pyInt? (dictGetD d "unix_seconds" .vnull)).isSome = true := by
    rw [heqUsec]; rfl
  by_cases hK : dictHas d "importance_score" = true
  · rw [if_pos hK] at h
    rw [optCheck_true_iff] at h; obtain ⟨score, heqImp, h⟩ := h
    rw [reqCheck_true_iff] at h; obtain ⟨h11, h⟩ := h
    have h6b : dictHas d "category" = true := by simpa using h6
    refine ⟨h1.1, h1.2, h2, h3, h6b, husec, ?_, h⟩
    rw [dictGetD_indep d "importance_score" (.vint 50) .vnull hK, heqImp]; rfl
  · have hK2 : dictHas d "importance_score" = false := by simpa using hK
    rw [hK2] at h
    simp only [Bool.false_eq_true, if_false] at h
    have h6b : dictHas d "category" = true := by simpa using h6
    refine ⟨h1.1, h1.2, h2, h3, h6b, husec, ?_, h⟩
    rw [dictHas_false_getD d "importance_score" (.vint 50) hK2]; rfl

theorem reqCheck_fst_false (c : Bool) (m : String) (r : Bool × String)
    (h : r.1 = false) : (reqCheck c m r).1 = false := by
  cases c <;> simp [reqCheck, h]

theorem optCheck_fst_false {a : Type} (v : Option a) (m : String) (k : a → Bool × String)
    (h : ∀ x, (k x).1 = false) : (optCheck v m k).1 = false := by
  cases v <;> simp [optCheck, h]

theorem dictGet?_getD (d : Dict) (k : String) (v dflt : Value)
    (h : dictGet? d k = some v) : dictGetD d k dflt = v := by
  simp [dictGetD, h]

theorem dictHas_of_get? (d : Dict) (k : String) (v : Value)
    (h : dictGet? d k = some v) : dictHas d k = true := by
  simp only [dictGet?, Option.map_eq_some'] at h
  obtain ⟨p, hp, hv⟩ := h
  have hmem := List.mem_of_find?_eq_some hp
  have hpred := List.find?_some hp
  simp only [dictHas, List.any_eq_true]
  exact ⟨p, hmem, hpred⟩

theorem validate_sources_list_cons (x : Value) (rest : List Value) (i : Nat) :
    validate_sources_list (x :: rest) i =
      if (validate_source x ("sources[" ++ toString i ++ "]")).1 = true
      then validate_sources_list rest (i + 1)
      else validate_source x ("sources[" ++ toString i ++ "]") := rfl

theorem validate_sources_list_all (xs : List Value) :
    ∀ (i : Nat), (validate_sources_list xs i).1 = true →
      ∀ s ∈ xs, (validate_source s "source").1 = true := by
  induction xs with
  | nil => intro i h s hs; simp at hs
  | cons x rest ih =>
    intro i h s hs
    rw [validate_sources_list_cons] at h
    by_cases hx : (validate_source x ("sources[" ++ toString i ++ "]")).1 = true
    · rw [if_pos hx] at h
      rcases List.mem_cons.mp hs with hxs | hxs
      · subst hxs
        rw [validate_source_fst_ctx s "source" ("sources[" ++ toString i ++ "]")]
        exact hx
      · exact ih (i + 1) h s hxs
    · rw [if_neg hx] at h
      exact absurd h hx

theorem validate_sources_list_false (xs : List Value) (s : Value)
    (hmem : s ∈ xs) (hf : (validate_source s "source").1 = false) :
    ∀ i, (validate_sources_list xs i).1 = false := by
  induction xs with
  | nil => intro i; simp at hmem
  | cons x rest ih =>
    intro i
    rw [validate_sources_list_cons]
    by_cases hx : (validate_source x ("sources[" ++ toString i ++ "]")).1 = true
    · rw [if_pos hx]
      rcases List.mem_cons.mp hmem with hxs | hxs
      · subst hxs
        rw [validate_source_fst_ctx s ("sources[" ++ toString i ++ "]") "source", hf] at hx
        exact Bool.noConfusion hx
      · exact ih hxs (i + 1)
    · rw [if_neg hx]
      simpa using hx

theorem sources_valid_of_event_sources (d : Dict)
    (h : (validate_event_sources d).1 = true) :
    ∀ s ∈ srcListOf d, (validate_source s "source").1 = true := by
  unfold validate_event_sources at h
  unfold srcListOf
  by_cases hs : dictHas d "sources" = true
  · rw [if_pos hs] at h
    rw [dictGetD_indep d "sources" (.vlist []) .vnull hs]
    cases hv : dictGetD d "sources" Value.vnull with
    | vlist xs =>
      rw [hv] at h
      exact validate_sources_list_all xs 0 h
    | vnull => rw [hv] at h; exact absurd h (by simp)
    | vbool b => rw [hv] at h; exact absurd h (by simp)
    | vint n => rw [hv] at h; exact absurd h (by simp)
    | vfloat q => rw [hv] at h; exact absurd h (by simp)
    | vstr s2 => rw [hv] at h; exact absurd h (by simp)
    | vdict d2 => rw [hv] at h; exact absurd h (by simp)
  · have hs2 : dictHas d "sources" = false := by simpa using hs
    rw [dictHas_false_getD d "sources" (.vlist []) hs2]
    intro s hmem
    simp at hmem

theorem event_sources_false_of_bad_source (d : Dict) (xs : List Value) (s : Value)
    (hget : dictGet? d "sources" = some (.vlist xs))
    (hmem : s ∈ xs) (hf : (validate_source s "source").1 = false) :
    (validate_event_sources d).1 = false := by
  unfold validate_event_sources
  rw [if_pos (dictHas_of_get? d "sources" (.vlist xs) hget)]
  rw [dictGet?_getD d "sources" (.vlist xs) .vnull hget]
  exact validate_sources_list_false xs s hmem hf 0

theorem validate_event_dict_false_tail (d : Dict)
    (h : (validate_event_sources d).1 = false) :
    (validate_event_dict d).1 = false := by
  unfold validate_event_dict
  refine reqCheck_fst_false _ _ _ (reqCheck_fst_false _ _ _ (reqCheck_fst_false _ _ _
    (reqCheck_fst_false _ _ _ (reqCheck_fst_false _ _ _ (reqCheck_fst_false _ _ _
    (reqCheck_fst_false _ _ _ (optCheck_fst_false _ _ _ (fun lat => ?_))))))))
  refine reqCheck_fst_false _ _ _ (optCheck_fst_false _ _ _ (fun lon => ?_))
  refine reqCheck_fst_false _ _ _ (reqCheck_fst_false _ _ _
    (optCheck_fst_false _ _ _ (fun x => ?_)))
  by_cases hK : dictHas d "importance_score" = true
  · rw [if_pos hK]
    exact optCheck_fst_false _ _ _ (fun score => reqCheck_fst_false _ _ _ h)
  · have hK2 : dictHas d "importance_score" = false := by simpa using hK
    rw [hK2]
    simpa using h

theorem validate_event_dict_false_of_missing (d : Dict)
    (hm : missingRequired (.vdict d) = true) :
    (validate_event_dict d).1 = false := by
  simp only [missingRequired, Bool.or_eq_true] at hm
  unfold validate_event_dict
  rcases hm with ((((hm | hm) | hm) | hm) | hm) | hm
  · rw [show (!dictHas d "title" || !pyTruthy (dictGetD d "title" .vnull)) = true by
        rcases hm with h | h <;> simp [h]]
    rfl
  · refine reqCheck_fst_false _ _ _ ?_
    rw [show (!dictHas d "unix_seconds") = true by simpa using hm]
    rfl
  · refine reqCheck_fst_false _ _ _ (reqCheck_fst_false _ _ _ ?_)
    rw [show (!dictHas d "precision_level") = true by simpa using hm]
    rfl
  · refine reqCheck_fst_false _ _ _ (reqCheck_fst_false _ _ _ (reqCheck_fst_false _ _ _ ?_))
    rw [show (!dictHas d "latitude" || (dictGetD d "latitude" .vnull).isNone) = true by
        rcases hm with h | h <;> simp [h]]
    rfl
  · refine reqCheck_fst_false _ _ _ (reqCheck_fst_false _ _ _ (reqCheck_fst_false _ _ _
      (reqCheck_fst_false _ _ _ ?_)))
    rw [show (!dictHas d "longitude" || (dictGetD d "longitude" .vnull).isNone) = true by
        rcases hm with h | h <;> simp [h]]
    rfl
  · refine reqCheck_fst_false _ _ _ (reqCheck_fst_false _ _ _ (reqCheck_fst_false _ _ _
      (reqCheck_fst_false _ _ _ (reqCheck_fst_false _ _ _ ?_))))
    rw [show (!dictHas d "category") = true by simpa using hm]
    rfl

/-! Source-insertion loop lemmas. -/

theorem insertSources_facts (u : Option String) (e : Nat) :
    ∀ (xs : List Value) (st : Ingester) (acc : List SourceRow),
      ((insertSources u e xs st acc).2.1.store = st.store)
      ∧ ((insertSources u e xs st acc).2.1.dry_run = st.dry_run)
      ∧ ((insertSources u e xs st acc).2.1.category_icons = st.category_icons)
      ∧ ((insertSources u e xs st acc).2.1.dbFaults = st.dbFaults)
      ∧ (st.nextId ≤ (insertSources u e xs st acc).2.1.nextId)
      ∧ ((insertSources u e xs st acc).2.1.stats.events_created = st.stats.events_created)
      ∧ ((insertSources u e xs st acc).2.1.stats.events_skipped = st.stats.events_skipped)
      ∧ ((insertSources u e xs st acc).2.1.stats.image_urls_replaced
          = st.stats.image_urls_replaced)
      ∧ ((insertSources u e xs st acc).2.1.stats.errors = st.stats.errors)
      ∧ (∀ m, (insertSources u e xs st acc).1 ≠ LoopExit.exc m)
      ∧ ((insertSources u e xs st acc).1 = LoopExit.done →
           (insertSources u e xs st acc).2.1.stats.sources_created + acc.length
             = st.stats.sources_created + (insertSources u e xs st acc).2.2.length) := by
  intro xs
  induction xs with
  | nil =>
    intro st acc
    simp [insertSources]
  | cons src rest ih =>
    intro st acc
    simp only [insertSources]
    split
    · exact ih st acc
    · rename_i hvb
      have hv : (validate_source src).1 = true := by simpa using hvb
      obtain ⟨sd, rfl⟩ := validate_source_true_dict src "source" hv
      dsimp only
      split
      · rename_i heq
        exact absurd (validate_source_cred_some sd "source" hv) (by simp [heq])
      · rename_i cred heq
        split
        · rename_i hfail
          refine ⟨rfl, rfl, rfl, rfl, ?_, rfl, rfl, rfl, rfl, ?_, ?_⟩
          · simp [Ingester.useId, Ingester.useOp]
          · intro m hcon; exact LoopExit.noConfusion hcon
          · intro hcon; exact LoopExit.noConfusion hcon
        · rename_i hfail
          obtain ⟨i1, i2, i3, i4, i5, i6, i7, i8, i9, i10, i11⟩ :=
            ih (((st.useId).useOp).bumpSources) (acc ++ [{
              id := st.freshId, event_id := e,
              source_type := dictGetD sd "source_type" (.vstr "other"),
              title := dictGetD sd "title" .vnull,
              url := dictGetD sd "url" .vnull,
              citation := dictGetD sd "citation" .vnull,
              credibility_score := cred,
              added_by_user_id := u }])
          refine ⟨?_, ?_, ?_, ?_, ?_, ?_, ?_, ?_, ?_, ?_, ?_⟩
          · exact i1
          · exact i2
          · exact i3
          · exact i4
          · refine le_trans ?_ i5
            simp [Ingester.useId, Ingester.useOp, Ingester.bumpSources]
          · exact i6
          · exact i7
          · exact i8
          · exact i9
          · exact i10
          · intro hdone
            have := i11 hdone
            simp only [Ingester.useId, Ingester.useOp, Ingester.bumpSources,
              List.length_append, List.length_cons, List.length_nil] at this ⊢
            omega

theorem resolveImageStep_facts (st : Ingester) (category raw : Value) :
    ((resolveImageStep st category raw).1 = resolveImage st.category_icons category raw)
    ∧ ((resolveImageStep st category raw).2.store = st.store)
    ∧ ((resolveImageStep st category raw).2.dry_run = st.dry_run)
    ∧ ((resolveImageStep st category raw).2.category_icons = st.category_icons)
    ∧ ((resolveImageStep st category raw).2.dbFaults = st.dbFaults)
    ∧ ((resolveImageStep st category raw).2.nextId = st.nextId)
    ∧ ((resolveImageStep st category raw).2.opIndex = st.opIndex)
    ∧ ((resolveImageStep st category raw).2.stats.events_created = st.stats.events_created)
    ∧ ((resolveImageStep st category raw).2.stats.events_skipped = st.stats.events_skipped)
    ∧ ((resolveImageStep st category raw).2.stats.sources_created = st.stats.sources_created)
    ∧ ((resolveImageStep st category raw).2.stats.errors = st.stats.errors)
    ∧ ((resolveImageStep st category raw).2.stats.image_urls_replaced
        = st.stats.image_urls_replaced
          + (if fallbackUsed st.category_icons category raw then 1 else 0)) := by
  unfold resolveImageStep resolveImage fallbackUsed
  split
  · simp
  · split
    · split
      · simp [Ingester.bumpReplaced]
      · simp
    · simp

/-- A category-not-found message is never the database-error message. -/
theorem catMsg_ne_dbErrMsg (s : String) :
    ("Category " ++ s ++ " not found in database") ≠ dbErrMsg := by
  intro h
  have h2 : ("Category " ++ s ++ " not found in database").data = dbErrMsg.data := by
    rw [h]
  rw [String.data_append, String.data_append] at h2
  have hc : "Category ".data = 'C' :: "ategory ".data := rfl
  have hd : dbErrMsg.data = 'D' :: "atabase error: psycopg2.Error".data := rfl
  rw [hc, hd] at h2
  simp only [List.cons_append, List.cons.injEq] at h2
  exact absurd h2.1 (by decide)

theorem commitResult_facts (st : Ingester) (d : Dict) (e : Nat) (row : EventRow)
    (srcRows : List SourceRow) (locRows : List LocationRow) :
    ((commitResult st d e row srcRows locRows).event = .vdict d)
    ∧ ((commitResult st d e row srcRows locRows).state.dry_run = st.dry_run)
    ∧ ((commitResult st d e row srcRows locRows).state.category_icons = st.category_icons)
    ∧ ((commitResult st d e row srcRows locRows).state.dbFaults = st.dbFaults)
    ∧ ((commitResult st d e row srcRows locRows).state.nextId = st.nextId)
    ∧ (∀ m, (commitResult st d e row srcRows locRows).outcome ≠ Outcome.uncaught m)
    ∧ (∀ m, (commitResult st d e row srcRows locRows).outcome = Outcome.rejected m →
        m = dbErrMsg
        ∧ (commitResult st d e row srcRows locRows).state.store = st.store
        ∧ (commitResult st d e row srcRows locRows).state.stats.events_skipped
            = st.stats.events_skipped + 1
        ∧ (commitResult st d e row srcRows locRows).state.stats.errors
            = st.stats.errors ++ [dbErrMsg]
        ∧ (commitResult st d e row srcRows locRows).state.stats.events_created
            = st.stats.events_created
        ∧ (commitResult st d e row srcRows locRows).state.stats.sources_created
            = st.stats.sources_created
        ∧ (commitResult st d e row srcRows locRows).state.stats.image_urls_replaced
            = st.stats.image_urls_replaced)
    ∧ (∀ m i, (commitResult st d e row srcRows locRows).outcome = Outcome.ok m i →
        i = e
        ∧ (commitResult st d e row srcRows locRows).state.store.events
            = st.store.events ++ [row]
        ∧ (commitResult st d e row srcRows locRows).state.store.sources
            = st.store.sources ++ srcRows
        ∧ (commitResult st d e row srcRows locRows).state.store.locations
            = st.store.locations ++ locRows
        ∧ (commitResult st d e row srcRows locRows).state.stats = st.stats) := by
  unfold commitResult
  split
  · refine ⟨rfl, rfl, rfl, rfl, rfl, ?_, ?_, ?_⟩
    · intro m hcon; exact Outcome.noConfusion hcon
    · intro m hm
      simp only [dbErrorResult, Outcome.rejected.injEq] at hm
      subst hm
      exact ⟨rfl, rfl, rfl, rfl, rfl, rfl, rfl⟩
    · intro m i hcon; exact Outcome.noConfusion hcon
  · refine ⟨rfl, rfl, rfl, rfl, rfl, ?_, ?_, ?_⟩
    · intro m hcon; exact Outcome.noConfusion hcon
    · intro m hcon; exact Outcome.noConfusion hcon
    · intro m i hok
      simp only [Outcome.ok.injEq] at hok
      exact ⟨hok.2.symm, rfl, rfl, rfl, rfl⟩

/-! Master case analysis of the ingestion try block. -/

/-- The facts the claims need about one ingestCore result, relative to the
entry state st: which record the mutated event is, which state components
are preserved, and per-outcome store and statistics effects. -/
abbrev CoreOut (st : Ingester) (d5 : Dict) (cat raw : Value) (r : IngestResult) : Prop :=
  (r.event = .vdict d5)
  ∧ (r.state.dry_run = st.dry_run)
  ∧ (r.state.category_icons = st.category_icons)
  ∧ (r.state.dbFaults = st.dbFaults)
  ∧ (st.nextId + 1 ≤ r.state.nextId)
  ∧ (∀ m, r.outcome = Outcome.rejected m →
      r.state.store = st.store
      ∧ r.state.stats.events_skipped = st.stats.events_skipped + 1
      ∧ (m = dbErrMsg → r.state.stats.errors = st.stats.errors ++ [dbErrMsg]))
  ∧ (∀ m, r.outcome = Outcome.uncaught m → r.state.store = st.store)
  ∧ (∀ m i, r.outcome = Outcome.ok m i →
      i = st.nextId
      ∧ r.state.stats.events_created = st.stats.events_created + 1
      ∧ r.state.stats.events_skipped = st.stats.events_skipped
      ∧ r.state.stats.errors = st.stats.errors
      ∧ r.state.stats.sources_created + st.store.sources.length
          = st.stats.sources_created + r.state.store.sources.length
      ∧ r.state.stats.image_urls_replaced = st.stats.image_urls_replaced
          + (if fallbackUsed st.category_icons cat raw then 1 else 0)
      ∧ ∃ row, r.state.store.events = st.store.events ++ [row]
          ∧ row.id = st.nextId
          ∧ row.image_url = resolveImage st.category_icons cat raw)

theorem dbError_leaf (A : Ingester) (d5 : Dict) (st : Ingester) (cat raw : Value)
    (hdry : A.dry_run = st.dry_run)
    (hic : A.category_icons = st.category_icons)
    (hfa : A.dbFaults = st.dbFaults)
    (hnx : st.nextId + 1 ≤ A.nextId)
    (hstore : A.store = st.store)
    (hskip : A.stats.events_skipped = st.stats.events_skipped)
    (herr : A.stats.errors = st.stats.errors) :
    CoreOut st d5 cat raw (dbErrorResult A d5) := by
  refine ⟨rfl, hdry, hic, hfa, hnx, ?_, ?_, ?_⟩
  · intro m hm
    simp only [dbErrorResult, Outcome.rejected.injEq] at hm
    subst hm
    refine ⟨hstore, ?_, fun _ => ?_⟩
    · show A.stats.events_skipped + 1 = st.stats.events_skipped + 1
      rw [hskip]
    · show A.stats.errors ++ [dbErrMsg] = st.stats.errors ++ [dbErrMsg]
      rw [herr]
  · intro m hm; exact absurd hm (by simp [dbErrorResult])
  · intro m i hm; exact absurd hm (by simp [dbErrorResult])

theorem uncaught_leaf (A : Ingester) (d5 : Dict) (st : Ingester) (cat raw : Value)
    (msg : String)
    (hdry : A.dry_run = st.dry_run)
    (hic : A.category_icons = st.category_icons)
    (hfa : A.dbFaults = st.dbFaults)
    (hnx : st.nextId + 1 ≤ A.nextId)
    (hstore : A.store = st.store) :
    CoreOut st d5 cat raw
      { outcome := Outcome.uncaught msg, state := A, event := .vdict d5 } := by
  refine ⟨rfl, hdry, hic, hfa, hnx, ?_, ?_, ?_⟩
  · intro m hm; exact absurd hm (by simp)
  · intro m hm; exact hstore
  · intro m i hm; exact absurd hm (by simp)

theorem commit_leaf (A : Ingester) (d5 : Dict) (e : Nat) (row : EventRow)
    (srcs : List SourceRow) (locs : List LocationRow) (st : Ingester) (cat raw : Value)
    (hdry : A.dry_run = st.dry_run)
    (hic : A.category_icons = st.category_icons)
    (hfa : A.dbFaults = st.dbFaults)
    (hnx : st.nextId + 1 ≤ A.nextId)
    (hstore : A.store = st.store)
    (hcrea : A.stats.events_created = st.stats.events_created + 1)
    (hskip : A.stats.events_skipped = st.stats.events_skipped)
    (herr : A.stats.errors = st.stats.errors)
    (hsrc : A.stats.sources_created = st.stats.sources_created + srcs.length)
    (hrep : A.stats.image_urls_replaced = st.stats.image_urls_replaced
        + (if fallbackUsed st.category_icons cat raw then 1 else 0))
    (he : e = st.nextId)
    (hrowid : row.id = st.nextId)
    (hrowimg : row.image_url = resolveImage st.category_icons cat raw) :
    CoreOut st d5 cat raw (commitResult A d5 e row srcs locs) := by
  obtain ⟨hc1, hc2, hc3, hc4, hc5, hc6, hc7, hc8⟩ := commitResult_facts A d5 e row srcs locs
  refine ⟨hc1, hc2.trans hdry, hc3.trans hic, hc4.trans hfa, ?_, ?_, ?_, ?_⟩
  · rw [hc5]; exact hnx
  · intro m hm
    obtain ⟨hme, hs, hsk, herr2, _, _, _⟩ := hc7 m hm
    exact ⟨hs.trans hstore, by rw [hsk, hskip], fun _ => by rw [herr2, herr]⟩
  · intro m hm; exact absurd hm (hc6 m)
  · intro m i hok
    obtain ⟨hie, hev, hsrcs, hlocs, hstats⟩ := hc8 m i hok
    refine ⟨hie.trans he, ?_, ?_, ?_, ?_, ?_, ⟨row, ?_, hrowid, hrowimg⟩⟩
    · rw [hstats, hcrea]
    · rw [hstats, hskip]
    · rw [hstats, herr]
    · rw [hstats, hsrc, hsrcs, hstore]
      simp only [List.length_append]
      omega
    · rw [hstats, hrep]
    · rw [hev, hstore]

theorem ingestCore_facts (st : Ingester) (d : Dict) (u : Option String) :
    CoreOut st
      (dictRemove (dictRemove (dictRemove (dictRemove
        (dictRemove d "sources") "category") "latitude") "longitude") "location_name")
      (dictGetD (dictRemove d "sources") "category" .vnull)
      (dictGetD (dictRemove (dictRemove (dictRemove (dictRemove
        (dictRemove d "sources") "category") "latitude") "longitude") "location_name")
        "image_url" .vnull)
      (ingestCore st d u) := by
  unfold ingestCore
  simp only []
  generalize hd5 : dictRemove (dictRemove (dictRemove (dictRemove
    (dictRemove d "sources") "category") "latitude") "longitude") "location_name" = d5
  generalize hcat : dictGetD (dictRemove d "sources") "category" Value.vnull = cat
  generalize hraw : dictGetD d5 "image_url" Value.vnull = raw
  obtain ⟨hI1, hI2, hI3, hI4, hI5, hI6, hI7, hI8, hI9, hI10, hI11, hI12⟩ :=
    resolveImageStep_facts ((st.useId).useOp) cat raw
  split
  · -- the category SELECT raises
    exact dbError_leaf _ _ st cat raw rfl rfl rfl
      (by simp [Ingester.useId, Ingester.useOp]) rfl rfl rfl
  · split
    · -- the category is not in the registry
      refine ⟨rfl, rfl, rfl, rfl, ?_, ?_, ?_, ?_⟩
      · simp [Ingester.useId, Ingester.useOp, Ingester.bumpSkipped]
      · intro m hm
        simp only [Outcome.rejected.injEq] at hm
        subst hm
        exact ⟨rfl, rfl, fun hdb => absurd hdb (catMsg_ne_dbErrMsg _)⟩
      · intro m hm; exact absurd hm (by simp)
      · intro m i hm; exact absurd hm (by simp)
    · split
      · -- unix_seconds coercion raises, uncaught
        refine uncaught_leaf _ _ st cat raw _ hI3 hI4 hI5 ?_ hI2
        rw [hI6]; simp [Ingester.useId, Ingester.useOp]
      · split
        · -- unix_nanos coercion raises, uncaught
          refine uncaught_leaf _ _ st cat raw _ hI3 hI4 hI5 ?_ hI2
          rw [hI6]; simp [Ingester.useId, Ingester.useOp]
        · split
          · -- importance_score coercion raises, uncaught
            refine uncaught_leaf _ _ st cat raw _ hI3 hI4 hI5 ?_ hI2
            rw [hI6]; simp [Ingester.useId, Ingester.useOp]
          · split
            · -- the event INSERT raises
              refine dbError_leaf _ _ st cat raw hI3 hI4 hI5 ?_ hI2 hI9 hI11
              show st.nextId + 1 ≤ (resolveImageStep ((st.useId).useOp) cat raw).2.nextId
              rw [hI6]; simp [Ingester.useId, Ingester.useOp]
            · -- the event INSERT succeeds; run the source loop
              obtain ⟨hl1, hl2, hl3, hl4, hl5, hl6, hl7, hl8, hl9, hl10, hl11⟩ :=
                insertSources_facts u st.freshId (srcListOf d)
                  (((resolveImageStep ((st.useId).useOp) cat raw).2).useOp).bumpCreated []
              have hnx4 : st.nextId + 1
                  ≤ ((((resolveImageStep ((st.useId).useOp) cat raw).2).useOp).bumpCreated).nextId := by
                show st.nextId + 1 ≤ (resolveImageStep ((st.useId).useOp) cat raw).2.nextId
                rw [hI6]; simp [Ingester.useId, Ingester.useOp]
              split
              · -- a source INSERT raises
                rename_i st5 snd heq
                rw [heq] at hl1 hl2 hl3 hl4 hl5
                exact dbError_leaf st5 _ st cat raw (hl2.trans hI3) (hl3.trans hI4)
                  (hl4.trans hI5) (le_trans hnx4 hl5) (hl1.trans hI2)
                  (by rw [heq] at hl7; exact hl7.trans hI9)
                  (by rw [heq] at hl9; exact hl9.trans hI11)
              · -- a source coercion raises, uncaught (dead in fact, see hl10)
                rename_i m2 st5 snd heq
                rw [heq] at hl1 hl2 hl3 hl4 hl5
                exact uncaught_leaf st5 _ st cat raw m2 (hl2.trans hI3) (hl3.trans hI4)
                  (hl4.trans hI5) (le_trans hnx4 hl5) (hl1.trans hI2)
              · -- all sources inserted
                rename_i st5 srcRows heq
                rw [heq] at hl1 hl2 hl3 hl4 hl5 hl7 hl9
                have hl6b : st5.stats.events_created = st.stats.events_created + 1 := by
                  rw [heq] at hl6
                  refine hl6.trans ?_
                  show (resolveImageStep ((st.useId).useOp) cat raw).2.stats.events_created + 1
                      = st.stats.events_created + 1
                  rw [hI8]
                  rfl
                have hl11b : st5.stats.sources_created
                    = st.stats.sources_created + srcRows.length := by
                  rw [heq] at hl11
                  have := hl11 rfl
                  simp only [List.length_nil, Nat.add_zero] at this
                  refine this.trans ?_
                  show (resolveImageStep ((st.useId).useOp) cat raw).2.stats.sources_created
                      + srcRows.length = st.stats.sources_created + srcRows.length
                  rw [hI10]
                  rfl
                have hl12b : st5.stats.image_urls_replaced = st.stats.image_urls_replaced
                    + (if fallbackUsed st.category_icons cat raw then 1 else 0) := by
                  rw [heq] at hl8
                  exact hl8.trans hI12
                split
                · -- a location row is inserted
                  split
                  · -- the location INSERT raises
                    exact dbError_leaf _ _ st cat raw (hl2.trans hI3) (hl3.trans hI4)
                      (hl4.trans hI5)
                      (le_trans (le_trans hnx4 hl5) (Nat.le_succ _))
                      (hl1.trans hI2) (hl7.trans hI9) (hl9.trans hI11)
                  · -- commit with the location row
                    refine commit_leaf _ _ _ _ _ _ st cat raw (hl2.trans hI3)
                      (hl3.trans hI4) (hl4.trans hI5)
                      (le_trans (le_trans hnx4 hl5) (Nat.le_succ _))
                      (hl1.trans hI2) hl6b (hl7.trans hI9) (hl9.trans hI11)
                      hl11b hl12b rfl rfl hI1
                · -- commit without a location row
                  refine commit_leaf _ _ _ _ _ _ st cat raw (hl2.trans hI3)
                    (hl3.trans hI4) (hl4.trans hI5) (le_trans hnx4 hl5)
                    (hl1.trans hI2) hl6b (hl7.trans hI9) (hl9.trans hI11)
                    hl11b hl12b rfl rfl hI1

/-- A validation-failure message is never the database-error message. -/
theorem valMsg_ne_dbErrMsg (s : String) :
    ("Event validation failed: " ++ s) ≠ dbErrMsg := by
  intro h
  have h2 : ("Event validation failed: " ++ s).data = dbErrMsg.data := by rw [h]
  rw [String.data_append] at h2
  have hc : "Event validation failed: ".data = 'E' :: "vent validation failed: ".data := rfl
  have hd : dbErrMsg.data = 'D' :: "atabase error: psycopg2.Error".data := rfl
  rw [hc, hd] at h2
  simp only [List.cons_append, List.cons.injEq] at h2
  exact absurd h2.1 (by decide)

/-! Key preservation across the five pops. -/

theorem popped_getD_category (d : Dict) :
    dictGetD (dictRemove d "sources") "category" .vnull = dictGetD d "category" .vnull :=
  dictRemove_getD_ne d "sources" "category" .vnull (by decide)

theorem popped_getD_image (d : Dict) :
    dictGetD (dictRemove (dictRemove (dictRemove (dictRemove
      (dictRemove d "sources") "category") "latitude") "longitude") "location_name")
      "image_url" .vnull = dictGetD d "image_url" .vnull := by
  rw [dictRemove_getD_ne _ "location_name" _ _ (by decide),
      dictRemove_getD_ne _ "longitude" _ _ (by decide),
      dictRemove_getD_ne _ "latitude" _ _ (by decide),
      dictRemove_getD_ne _ "category" _ _ (by decide),
      dictRemove_getD_ne _ "sources" _ _ (by decide)]

theorem popped_has_latitude (d : Dict) :
    dictHas (dictRemove (dictRemove (dictRemove (dictRemove
      (dictRemove d "sources") "category") "latitude") "longitude") "location_name")
      "latitude" = false := by
  rw [dictRemove_has_ne _ "location_name" _ (by decide),
      dictRemove_has_ne _ "longitude" _ (by decide)]
  exact dictRemove_has_self _ "latitude"

theorem popped_has_category (d : Dict) :
    dictHas (dictRemove (dictRemove (dictRemove (dictRemove
      (dictRemove d "sources") "category") "latitude") "longitude") "location_name")
      "category" = false := by
  rw [dictRemove_has_ne _ "location_name" _ (by decide),
      dictRemove_has_ne _ "longitude" _ (by decide),
      dictRemove_has_ne _ "latitude" _ (by decide)]
  exact dictRemove_has_self _ "category"

theorem popped_keep_title (d : Dict) :
    dictHas (dictRemove (dictRemove (dictRemove (dictRemove
      (dictRemove d "sources") "category") "latitude") "longitude") "location_name")
      "title" = dictHas d "title"
    ∧ dictGetD (dictRemove (dictRemove (dictRemove (dictRemove
      (dictRemove d "sources") "category") "latitude") "longitude") "location_name")
      "title" .vnull = dictGetD d "title" .vnull := by
  constructor
  · rw [dictRemove_has_ne _ "location_name" _ (by decide),
        dictRemove_has_ne _ "longitude" _ (by decide),
        dictRemove_has_ne _ "latitude" _ (by decide),
        dictRemove_has_ne _ "category" _ (by decide),
        dictRemove_has_ne _ "sources" _ (by decide)]
  · rw [dictRemove_getD_ne _ "location_name" _ _ (by decide),
        dictRemove_getD_ne _ "longitude" _ _ (by decide),
        dictRemove_getD_ne _ "latitude" _ _ (by decide),
        dictRemove_getD_ne _ "category" _ _ (by decide),
        dictRemove_getD_ne _ "sources" _ _ (by decide)]

theorem popped_keep_unix_seconds (d : Dict) :
    dictHas (dictRemove (dictRemove (dictRemove (dictRemove
      (dictRemove d "sources") "category") "latitude") "longitude") "location_name")
      "unix_seconds" = dictHas d "unix_seconds" := by
  rw [dictRemove_has_ne _ "location_name" _ (by decide),
      dictRemove_has_ne _ "longitude" _ (by decide),
      dictRemove_has_ne _ "latitude" _ (by decide),
      dictRemove_has_ne _ "category" _ (by decide),
      dictRemove_has_ne _ "sources" _ (by decide)]

theorem popped_keep_precision (d : Dict) :
    dictHas (dictRemove (dictRemove (dictRemove (dictRemove
      (dictRemove d "sources") "category") "latitude") "longitude") "location_name")
      "precision_level" = dictHas d "precision_level" := by
  rw [dictRemove_has_ne _ "location_name" _ (by decide),
      dictRemove_has_ne _ "longitude" _ (by decide),
      dictRemove_has_ne _ "latitude" _ (by decide),
      dictRemove_has_ne _ "category" _ (by decide),
      dictRemove_has_ne _ "sources" _ (by decide)]

theorem validate_event_true_dict (e : Value)
    (h : (validate_event e).1 = true) : ∃ d, e = .vdict d := by
  cases e with
  | vdict d => exact ⟨d, rfl⟩
  | vnull => simp [validate_event] at h
  | vbool b => simp [validate_event] at h
  | vint n => simp [validate_event] at h
  | vfloat q => simp [validate_event] at h
  | vstr s2 => simp [validate_event] at h
  | vlist xs => simp [validate_event] at h

/-! Ingest-level case facts. -/

theorem ingest_facts (st : Ingester) (ev : Value) (u : Option String) :
    ((ingest_event_with_sources st ev u).state.dry_run = st.dry_run)
    ∧ ((ingest_event_with_sources st ev u).state.category_icons = st.category_icons)
    ∧ ((ingest_event_with_sources st ev u).state.dbFaults = st.dbFaults)
    ∧ ((validate_event ev).1 = false →
        (ingest_event_with_sources st ev u).outcome
          = Outcome.rejected ("Event validation failed: " ++ (validate_event ev).2)
        ∧ (ingest_event_with_sources st ev u).state.store = st.store
        ∧ (ingest_event_with_sources st ev u).event = ev
        ∧ (ingest_event_with_sources st ev u).state.stats.events_skipped
            = st.stats.events_skipped + 1
        ∧ (ingest_event_with_sources st ev u).state.stats.events_created
            = st.stats.events_created
        ∧ (ingest_event_with_sources st ev u).state.stats.sources_created
            = st.stats.sources_created
        ∧ (ingest_event_with_sources st ev u).state.stats.errors = st.stats.errors)
    ∧ (∀ m, (ingest_event_with_sources st ev u).outcome = Outcome.rejected m →
        (ingest_event_with_sources st ev u).state.store = st.store
        ∧ (ingest_event_with_sources st ev u).state.stats.events_skipped
            = st.stats.events_skipped + 1
        ∧ (m = dbErrMsg → (ingest_event_with_sources st ev u).state.stats.errors
            = st.stats.errors ++ [dbErrMsg]))
    ∧ (∀ m, (ingest_event_with_sources st ev u).outcome = Outcome.uncaught m →
        (ingest_event_with_sources st ev u).state.store = st.store)
    ∧ (∀ m i, (ingest_event_with_sources st ev u).outcome = Outcome.ok m i →
        i = st.nextId ∧ st.nextId + 1 ≤ (ingest_event_with_sources st ev u).state.nextId)
    ∧ (st.dry_run = false →
        ∀ m i, (ingest_event_with_sources st ev u).outcome = Outcome.ok m i →
        ∃ d0, ev = .vdict d0
        ∧ (ingest_event_with_sources st ev u).state.stats.events_created
            = st.stats.events_created + 1
        ∧ (ingest_event_with_sources st ev u).state.stats.events_skipped
            = st.stats.events_skipped
        ∧ (ingest_event_with_sources st ev u).state.stats.errors = st.stats.errors
        ∧ (ingest_event_with_sources st ev u).state.stats.sources_created
              + st.store.sources.length
            = st.stats.sources_created
              + (ingest_event_with_sources st ev u).state.store.sources.length
        ∧ (ingest_event_with_sources st ev u).state.stats.image_urls_replaced
            = st.stats.image_urls_replaced
              + (if fallbackUsed st.category_icons (dictGetD d0 "category" .vnull)
                    (dictGetD d0 "image_url" .vnull) then 1 else 0)
        ∧ ∃ row, (ingest_event_with_sources st ev u).state.store.events
              = st.store.events ++ [row]
            ∧ row.id = st.nextId
            ∧ row.image_url = resolveImage st.category_icons
                (dictGetD d0 "category" .vnull) (dictGetD d0 "image_url" .vnull))
    ∧ (st.dry_run = false → (validate_event ev).1 = true → ∀ d0, ev = .vdict d0 →
        (ingest_event_with_sources st ev u).event
          = .vdict (dictRemove (dictRemove (dictRemove (dictRemove
              (dictRemove d0 "sources") "category") "latitude") "longitude")
              "location_name")) := by
  unfold ingest_event_with_sources
  simp only []
  split
  · -- validation failed
    rename_i hv
    have hv2 : (validate_event ev).1 = false := by simpa using hv
    refine ⟨rfl, rfl, rfl, ?_, ?_, ?_, ?_, ?_, ?_⟩
    · intro _
      exact ⟨rfl, rfl, rfl, rfl, rfl, rfl, rfl⟩
    · intro m hm
      simp only [Outcome.rejected.injEq] at hm
      subst hm
      exact ⟨rfl, rfl, fun hdb => absurd hdb (valMsg_ne_dbErrMsg _)⟩
    · intro m hm; exact absurd hm (by simp)
    · intro m i hm; exact absurd hm (by simp)
    · intro hdry m i hm; exact absurd hm (by simp)
    · intro hdry hvt; rw [hvt] at hv2; exact Bool.noConfusion hv2
  · rename_i hv
    have hvt : (validate_event ev).1 = true := by simpa using hv
    split
    · -- dry run
      rename_i hdry
      refine ⟨rfl, rfl, rfl, ?_, ?_, ?_, ?_, ?_, ?_⟩
      · intro hvf; rw [hvf] at hvt; exact Bool.noConfusion hvt
      · intro m hm; exact absurd hm (by simp)
      · intro m hm; exact absurd hm (by simp)
      · intro m i hm
        simp only [Outcome.ok.injEq] at hm
        refine ⟨hm.2.symm, ?_⟩
        simp [Ingester.useId]
      · intro hdry2; rw [hdry] at hdry2; exact Bool.noConfusion hdry2
      · intro hdry2; rw [hdry] at hdry2; exact Bool.noConfusion hdry2
    · rename_i hdry
      have hdry2 : st.dry_run = false := by simpa using hdry
      split
      · -- the real try block
        rename_i d0
        obtain ⟨c1, c2, c3, c4, c5, c6, c7, c8⟩ := ingestCore_facts st d0 u
        refine ⟨c2, c3, c4, ?_, c6, c7, ?_, ?_, ?_⟩
        · intro hvf; rw [hvf] at hvt; exact Bool.noConfusion hvt
        · intro m i hm
          obtain ⟨hie, _⟩ := c8 m i hm
          exact ⟨hie, c5⟩
        · intro _ m i hm
          obtain ⟨hie, hcr, hsk, herr, hsrc, hrep, hrow⟩ := c8 m i hm
          refine ⟨d0, rfl, hcr, hsk, herr, hsrc, ?_, ?_⟩
          · rw [hrep, popped_getD_category, popped_getD_image]
          · obtain ⟨row, hre, hri, hrimg⟩ := hrow
            exact ⟨row, hre, hri, by
              rw [hrimg, popped_getD_category, popped_getD_image]⟩
        · intro _ _ d1 hd1
          injection hd1 with hd1e
          subst hd1e
          exact c1
      · -- validation passed on a non-dictionary: contradiction
        rename_i hnc
        obtain ⟨dd, hdd⟩ := validate_event_true_dict ev hvt
        exact absurd hdd (hnc dd)

/-! Concrete fixtures used by witnesses and counterexamples. -/

/-- Fresh statistics. -/
def stats0 : Stats :=
  { events_created := 0, sources_created := 0, events_skipped := 0,
    image_urls_replaced := 0, errors := [] }

/-- A store whose registry knows the single category war. -/
def store0 : Store :=
  { categories := ["war"], events := [], sources := [], locations := [] }

/-- A connected, non-dry-run ingester over store0 with no icons and no
database faults. -/
def st0 : Ingester :=
  { dry_run := false, category_icons := [], store := store0, stats := stats0,
    nextId := 0, dbFaults := [], opIndex := 0 }

/-- A valid candidate event. -/
def ev0 : Value := .vdict
  [("title", .vstr "Battle"), ("unix_seconds", .vint 100),
   ("precision_level", .vstr "day"), ("latitude", .vint 10),
   ("longitude", .vint 20), ("category", .vstr "war")]

/-- The valid candidate with one valid source attached. -/
def evSrc : Value := .vdict
  [("title", .vstr "Battle"), ("unix_seconds", .vint 100),
   ("precision_level", .vstr "day"), ("latitude", .vint 10),
   ("longitude", .vint 20), ("category", .vstr "war"),
   ("sources", .vlist [.vdict [("url", .vstr "http://a")]])]

/-- The ingester with a fault injected at database operation 2, the first
source INSERT (operation 0 is the registry SELECT, 1 the event INSERT). -/
def stF : Ingester := { st0 with dbFaults := [false, false, true] }

/-- Claim C1: when the per-event unit of work fails with a persistence-layer
error after the event row insert (for example a later source or location
insert throws, signalled by the rejected outcome carrying the database
error message), the entire unit of work is rolled back: no events row, no
event_sources row and no event_locations row from that attempt survives in
the store.  The witness exhibits such a call returning Rejected. -/
theorem C1_db_error_rolls_back (st : Ingester) (ev : Value) (u : Option String)
    (h : (ingest_event_with_sources st ev u).outcome = Outcome.rejected dbErrMsg) :
    (ingest_event_with_sources st ev u).state.store.events = st.store.events
    ∧ (ingest_event_with_sources st ev u).state.store.sources = st.store.sources
    ∧ (ingest_event_with_sources st ev u).state.store.locations = st.store.locations := by
  obtain ⟨_, _, _, _, hrej, _, _, _, _⟩ := ingest_facts st ev u
  obtain ⟨hs, _, _⟩ := hrej dbErrMsg h
  exact ⟨by rw [hs], by rw [hs], by rw [hs]⟩

/-- Witness for C1: with a fault injected at the first source INSERT, the
event insert succeeds, the call returns Rejected, and no row survives. -/
theorem C1_db_error_rolls_back_witness :
    (ingest_event_with_sources stF evSrc none).state.store.events = stF.store.events
    ∧ (ingest_event_with_sources stF evSrc none).state.store.sources = stF.store.sources
    ∧ (ingest_event_with_sources stF evSrc none).state.store.locations
        = stF.store.locations :=
  C1_db_error_rolls_back stF evSrc none (by rfl)

theorem popped_getD_keep (d : Dict) (k : String) (v : Value)
    (h1 : k ≠ "sources") (h2 : k ≠ "category") (h3 : k ≠ "latitude")
    (h4 : k ≠ "longitude") (h5 : k ≠ "location_name") :
    dictGetD (dictRemove (dictRemove (dictRemove (dictRemove
      (dictRemove d "sources") "category") "latitude") "longitude") "location_name")
      k v = dictGetD d k v := by
  rw [dictRemove_getD_ne _ "location_name" _ _ h5,
      dictRemove_getD_ne _ "longitude" _ _ h4,
      dictRemove_getD_ne _ "latitude" _ _ h3,
      dictRemove_getD_ne _ "category" _ _ h2,
      dictRemove_getD_ne _ "sources" _ _ h1]

theorem ingestCore_no_uncaught (st : Ingester) (d : Dict) (u : Option String)
    (hv : (validate_event_dict d).1 = true)
    (hn : (pyInt? (dictGetD d "unix_nanos" (.vint 0))).isSome = true) :
    ∀ m, (ingestCore st d u).outcome ≠ Outcome.uncaught m := by
  obtain ⟨f1, f2, f3, f4, fcat, fsec, fimp, fsrcs⟩ := validate_event_facts d hv
  intro m
  unfold ingestCore
  simp only []
  split
  · simp [dbErrorResult]
  · split
    · simp
    · split
      · rename_i heq
        rw [popped_getD_keep d "unix_seconds" .vnull (by decide) (by decide) (by decide)
          (by decide) (by decide)] at heq
        rw [heq] at fsec
        simp at fsec
      · split
        · rename_i heq
          rw [popped_getD_keep d "unix_nanos" (.vint 0) (by decide) (by decide) (by decide)
            (by decide) (by decide)] at heq
          rw [heq] at hn
          simp at hn
        · split
          · rename_i heq
            rw [popped_getD_keep d "importance_score" (.vint 50) (by decide) (by decide)
              (by decide) (by decide) (by decide)] at heq
            rw [heq] at fimp
            simp at fimp
          · split
            · simp [dbErrorResult]
            · obtain ⟨_, _, _, _, _, _, _, _, _, hl10, _⟩ :=
                insertSources_facts u st.freshId (srcListOf d)
                  (((resolveImageStep ((st.useId).useOp)
                    (dictGetD (dictRemove d "sources") "category" Value.vnull)
                    (dictGetD (dictRemove (dictRemove (dictRemove (dictRemove
                      (dictRemove d "sources") "category") "latitude") "longitude")
                      "location_name") "image_url" Value.vnull)).2).useOp).bumpCreated []
              split
              · simp [dbErrorResult]
              · rename_i m2 st5 snd heq
                rw [heq] at hl10
                intro _
                exact (hl10 m2) rfl
              · split
                · split
                  · simp [dbErrorResult]
                  · intro hcon
                    exact absurd hcon
                      ((commitResult_facts _ _ _ _ _ _).2.2.2.2.2.1 m)
                · intro hcon
                  exact absurd hcon
                    ((commitResult_facts _ _ _ _ _ _).2.2.2.2.2.1 m)

theorem nanosOk_coercible (d : Dict) (hn : nanosOk (.vdict d) = true) :
    (pyInt? (dictGetD d "unix_nanos" (.vint 0))).isSome = true := by
  simp only [nanosOk, Bool.or_eq_true] at hn
  rcases hn with hn | hn
  · rw [dictHas_false_getD d "unix_nanos" (.vint 0) (by simpa using hn)]
    rfl
  · exact hn

theorem ingest_no_uncaught (st : Ingester) (ev : Value) (u : Option String)
    (hn : nanosOk ev = true) :
    ∀ m, (ingest_event_with_sources st ev u).outcome ≠ Outcome.uncaught m := by
  intro m
  unfold ingest_event_with_sources
  simp only []
  split
  · simp
  · rename_i hv
    have hvt : (validate_event ev).1 = true := by simpa using hv
    split
    · simp
    · split
      · rename_i d0
        apply ingestCore_no_uncaught
        · rw [← validate_event_vdict]; exact hvt
        · exact nanosOk_coercible d0 (by simpa using hn)
      · rename_i hnc
        obtain ⟨dd, hdd⟩ := validate_event_true_dict ev hvt
        exact absurd hdd (hnc dd)

/-- The valid candidate with a non-coercible unix_nanos value; validation
never inspects unix_nanos, so this passes validation. -/
def evBadNanos : Value := .vdict
  [("title", .vstr "Battle"), ("unix_seconds", .vint 100),
   ("precision_level", .vstr "day"), ("latitude", .vint 10),
   ("longitude", .vint 20), ("category", .vstr "war"),
   ("unix_nanos", .vstr "x")]

/-- A candidate missing its required category field. -/
def evMiss : Value := .vdict
  [("title", .vstr "Battle"), ("unix_seconds", .vint 100),
   ("precision_level", .vstr "day"), ("latitude", .vint 10),
   ("longitude", .vint 20)]

/-- Counterexample to claim C4: the Ingestion Engine catches only
psycopg2 errors; the unvalidated unix_nanos coercion raises an uncaught
ValueError that aborts the batch, so the second (perfectly valid) event is
never processed, although it is processed when submitted alone. -/
theorem C4_batch_abort_counterexample :
    (ingest_batch st0 [evBadNanos, ev0] none).aborted = some "ValueError: unix_nanos"
    ∧ (ingest_batch st0 [evBadNanos, ev0] none).remaining = [ev0]
    ∧ (ingest_batch st0 [evBadNanos, ev0] none).state.store.events.length = 0
    ∧ (ingest_batch st0 [ev0] none).aborted = none
    ∧ (ingest_batch st0 [ev0] none).state.store.events.length = 1 := by
  exact ⟨rfl, rfl, rfl, rfl, rfl⟩

/-- Claim C4 as amended: for every input sequence whose events all have an
absent or integer-coercible unix_nanos field, the Batch Runner processes
the whole sequence in order: every per-event fault (validation failure,
unknown category, psycopg2 persistence error) is converted to a structured
rejected outcome, no unhandled fault reaches the Batch Runner, and one
item's rejection never prevents the remaining items from being processed
(no abort, no unprocessed remainder). -/
theorem C4_batch_processes_all (st : Ingester) (events : List Value)
    (u : Option String) (h : ∀ e ∈ events, nanosOk e = true) :
    (ingest_batch st events u).aborted = none
    ∧ (ingest_batch st events u).remaining = [] := by
  induction events generalizing st with
  | nil => exact ⟨rfl, rfl⟩
  | cons e rest ih =>
    unfold ingest_batch
    simp only []
    split
    · rename_i m heq
      exact absurd heq (ingest_no_uncaught st e u (h e (by simp)) m)
    · exact ih (ingest_event_with_sources st e u).state (fun x hx => h x (by simp [hx]))

/-- Witness for the amended C4: a batch whose first event is rejected for a
missing category and whose second is valid is processed to the end. -/
theorem C4_batch_processes_all_witness :
    (ingest_batch st0 [evMiss, ev0] none).aborted = none
    ∧ (ingest_batch st0 [evMiss, ev0] none).remaining = [] :=
  C4_batch_processes_all st0 [evMiss, ev0] none (by intro e he; fin_cases he <;> rfl)

/-- Claim C5: submitting the identical CandidateEvent twice through two
separate non-dry-run ingest calls that both succeed yields two distinct
event identifiers and two PersistedEvent rows; the Ingestion Engine
performs no deduplication by logical identity. -/
theorem C5_no_dedup (st : Ingester) (ev : Value) (u : Option String)
    (m1 m2 : String) (i1 i2 : Nat)
    (hdry : st.dry_run = false)
    (h1 : (ingest_event_with_sources st ev u).outcome = Outcome.ok m1 i1)
    (h2 : (ingest_event_with_sources (ingest_event_with_sources st ev u).state ev u).outcome
        = Outcome.ok m2 i2) :
    i1 ≠ i2
    ∧ ((ingest_event_with_sources
          (ingest_event_with_sources st ev u).state ev u).state).store.events.length
        = st.store.events.length + 2 := by
  obtain ⟨a1, _, _, _, _, _, a7, a8, _⟩ := ingest_facts st ev u
  obtain ⟨b1, _, _, _, _, _, b7, b8, _⟩ :=
    ingest_facts (ingest_event_with_sources st ev u).state ev u
  obtain ⟨hi1, hnx1⟩ := a7 m1 i1 h1
  obtain ⟨hi2, _⟩ := b7 m2 i2 h2
  obtain ⟨d0, _, _, _, _, _, _, row1, hev1, _, _⟩ := a8 hdry m1 i1 h1
  obtain ⟨d0b, _, _, _, _, _, _, row2, hev2, _, _⟩ := b8 (a1.trans hdry) m2 i2 h2
  constructor
  · rw [hi1, hi2]
    omega
  · rw [hev2, hev1]
    simp

/-- Witness for C5: the same valid candidate ingested twice into the empty
store receives identifiers 0 and 2 and leaves two event rows. -/
theorem C5_no_dedup_witness :
    (0 : Nat) ≠ 2
    ∧ ((ingest_event_with_sources
          (ingest_event_with_sources st0 ev0 none).state ev0 none).state).store.events.length
        = st0.store.events.length + 2 :=
  C5_no_dedup st0 ev0 none "Created event with 0 sources" "Created event with 0 sources"
    0 2 rfl rfl rfl

/-- Claim C6: for every CandidateEvent missing any of the required fields
title (non-empty), timestamp, precision level, latitude, longitude or
category, ingest returns Rejected and writes no row to the events, sources
or locations table. -/
theorem C6_missing_required_rejects (st : Ingester) (ev : Value) (u : Option String)
    (hm : missingRequired ev = true) :
    (∃ m, (ingest_event_with_sources st ev u).outcome = Outcome.rejected m)
    ∧ (ingest_event_with_sources st ev u).state.store.events = st.store.events
    ∧ (ingest_event_with_sources st ev u).state.store.sources = st.store.sources
    ∧ (ingest_event_with_sources st ev u).state.store.locations = st.store.locations := by
  obtain ⟨_, _, _, hvf, _, _, _, _, _⟩ := ingest_facts st ev u
  have hv : (validate_event ev).1 = false := by
    cases ev with
    | vdict d =>
      rw [validate_event_vdict]
      exact validate_event_dict_false_of_missing d hm
    | vnull => simp [missingRequired] at hm
    | vbool b => simp [missingRequired] at hm
    | vint n => simp [missingRequired] at hm
    | vfloat q => simp [missingRequired] at hm
    | vstr s => simp [missingRequired] at hm
    | vlist xs => simp [missingRequired] at hm
  obtain ⟨hout, hstore, _, _, _, _, _⟩ := hvf hv
  exact ⟨⟨_, hout⟩, by rw [hstore], by rw [hstore], by rw [hstore]⟩

/-- Witness for C6: a candidate missing its category is rejected and the
store is untouched. -/
theorem C6_missing_required_rejects_witness :
    (∃ m, (ingest_event_with_sources st0 evMiss none).outcome = Outcome.rejected m)
    ∧ (ingest_event_with_sources st0 evMiss none).state.store.events = st0.store.events
    ∧ (ingest_event_with_sources st0 evMiss none).state.store.sources = st0.store.sources
    ∧ (ingest_event_with_sources st0 evMiss none).state.store.locations
        = st0.store.locations :=
  C6_missing_required_rejects st0 evMiss none (by rfl)

/-- The source_type check of validate_source as a standalone predicate. -/
def sourceTypeOk (sd : Dict) : Bool :=
  !dictHas sd "source_type"
  || valueInStrs (dictGetD sd "source_type" .vnull) VALID_SOURCE_TYPES

/-- The credibility_score check of validate_source as a standalone
predicate. -/
def credibilityOk (sd : Dict) : Bool :=
  !dictHas sd "credibility_score"
  || (match pyInt? (dictGetD sd "credibility_score" .vnull) with
      | none => false
      | some score => !(score < 0 || score > 100))

/-- Counterexample to claim C7: a source whose url and title are both
present but empty is accepted by validate_source; only key presence is
checked, not non-emptiness. -/
theorem C7_empty_url_title_accepted_counterexample :
    (validate_source (.vdict [("url", .vstr ""), ("title", .vstr "")]) "source").1 = true
    ∧ pyTruthy (dictGetD [("url", Value.vstr ""), ("title", Value.vstr "")] "url" .vnull)
        = false
    ∧ pyTruthy (dictGetD [("url", Value.vstr ""), ("title", Value.vstr "")] "title" .vnull)
        = false := by
  exact ⟨rfl, rfl, rfl⟩

/-- Claim C7 as amended: validate_source accepts a dictionary source
exactly when at least one of the url or title keys is present (whatever
their values, including empty) and the optional source_type and
credibility_score checks pass; value emptiness is never examined. -/
theorem C7_validate_source_presence_only (sd : Dict) (c : String) :
    (validate_source (.vdict sd) c).1
      = ((dictHas sd "url" || dictHas sd "title") && sourceTypeOk sd && credibilityOk sd) := by
  unfold validate_source sourceTypeOk credibilityOk
  repeat' split
  all_goals simp_all
  case h_1.isFalse.isFalse.isTrue.h_2.isTrue.h_2 =>
    rename_i hA hB hC hD hE hF hG
    intro _ _ h0
    rcases hF with h | h
    · omega
    · exact h
  case h_1.isFalse.isFalse.isTrue.h_2.isFalse.h_2 =>
    rename_i hA hB hC hD hE hF hG
    subst hA
    constructor
    · by_cases hurl : dictHas sd "url" = true
      · exact Or.inl hurl
      · exact Or.inr (hB (by simpa using hurl))
    · by_cases hst : dictHas sd "source_type" = true
      · exact Or.inr (hC hst)
      · exact Or.inl (by simpa using hst)
  case h_1.isFalse.isFalse.isFalse.h_1 =>
    rename_i hA hB hC hD hE
    subst hA
    constructor
    · by_cases hurl : dictHas sd "url" = true
      · exact Or.inl hurl
      · exact Or.inr (hB (by simpa using hurl))
    · by_cases hst : dictHas sd "source_type" = true
      · exact Or.inr (hC hst)
      · exact Or.inl (by simpa using hst)
  case h_1.isFalse.isFalse.isFalse.h_2 =>
    rename_i hA hB hC hD hE
    subst hA
    constructor
    · by_cases hurl : dictHas sd "url" = true
      · exact Or.inl hurl
      · exact Or.inr (hB (by simpa using hurl))
    · by_cases hst : dictHas sd "source_type" = true
      · exact Or.inr (hC hst)
      · exact Or.inl (by simpa using hst)

/-- Counterexample to claim C2: a valid event with no supplied image URL
whose category has no registered placeholder is successfully persisted with
a null image URL; the resolved image URL of a PersistedEvent can be null. -/
theorem C2_null_image_counterexample :
    (ingest_event_with_sources st0 ev0 none).outcome
      = Outcome.ok "Created event with 0 sources" 0
    ∧ (ingest_event_with_sources st0 ev0 none).state.store.events.map
        (fun r => r.image_url) = [Value.vnull] := by
  exact ⟨rfl, rfl⟩

/-- Claim C2 as amended: for every successfully ingested event (non-dry
run), the persisted image URL is the image resolution of the candidate:
the supplied image URL when truthy, otherwise the category placeholder
when the fallback lookup yields a non-empty one, otherwise the raw
supplied value, which is null when no image was supplied — so the
persisted image URL can be null when no image was supplied and no
placeholder is registered for the category. -/
theorem C2_image_resolution (st : Ingester) (ev : Value) (u : Option String)
    (m : String) (i : Nat)
    (hdry : st.dry_run = false)
    (hok : (ingest_event_with_sources st ev u).outcome = Outcome.ok m i) :
    ∃ d0 row, ev = .vdict d0
    ∧ (ingest_event_with_sources st ev u).state.store.events
        = st.store.events ++ [row]
    ∧ row.image_url = resolveImage st.category_icons
        (dictGetD d0 "category" .vnull) (dictGetD d0 "image_url" .vnull) := by
  obtain ⟨_, _, _, _, _, _, _, hfull, _⟩ := ingest_facts st ev u
  obtain ⟨d0, hev, _, _, _, _, _, row, hre, _, hrimg⟩ := hfull hdry m i hok
  exact ⟨d0, row, hev, hre, hrimg⟩

/-- Witness for the amended C2: the run of the counterexample, whose
resolution is null. -/
theorem C2_image_resolution_witness :
    ∃ d0 row, ev0 = .vdict d0
    ∧ (ingest_event_with_sources st0 ev0 none).state.store.events
        = st0.store.events ++ [row]
    ∧ row.image_url = resolveImage st0.category_icons
        (dictGetD d0 "category" .vnull) (dictGetD d0 "image_url" .vnull) :=
  C2_image_resolution st0 ev0 none "Created event with 0 sources" 0 rfl rfl

/-- Counterexample to claim C3: with a fault injected at the first source
INSERT the call returns Rejected for a persistence-layer error, yet the
created-event counter has been incremented by the call (the increment
happens at insert time and rollback does not undo it). -/
theorem C3_counters_counterexample :
    (ingest_event_with_sources stF evSrc none).outcome = Outcome.rejected dbErrMsg
    ∧ stF.stats.events_created = 0
    ∧ (ingest_event_with_sources stF evSrc none).state.stats.events_created = 1 := by
  exact ⟨rfl, rfl, rfl⟩

/-- Claim C3 as amended: on a successful non-dry-run ingest the
created-event counter rises by exactly 1 and the created-sources counter
by the number of source rows actually inserted, while the skip counter and
error list are unchanged; on an ingest rejected by a persistence-layer
error the skip counter rises by 1 and the error is recorded, but the
created counters keep any increments applied before the failure (they are
bumped at insert time and are not rolled back). -/
theorem C3_stats_counters (st : Ingester) (ev : Value) (u : Option String) :
    (∀ m i, (ingest_event_with_sources st ev u).outcome = Outcome.ok m i →
      st.dry_run = false →
        (ingest_event_with_sources st ev u).state.stats.events_created
            = st.stats.events_created + 1
        ∧ (ingest_event_with_sources st ev u).state.stats.sources_created
              + st.store.sources.length
            = st.stats.sources_created
              + (ingest_event_with_sources st ev u).state.store.sources.length
        ∧ (ingest_event_with_sources st ev u).state.stats.events_skipped
            = st.stats.events_skipped
        ∧ (ingest_event_with_sources st ev u).state.stats.errors = st.stats.errors)
    ∧ ((ingest_event_with_sources st ev u).outcome = Outcome.rejected dbErrMsg →
        (ingest_event_with_sources st ev u).state.stats.events_skipped
            = st.stats.events_skipped + 1
        ∧ (ingest_event_with_sources st ev u).state.stats.errors
            = st.stats.errors ++ [dbErrMsg]) := by
  obtain ⟨_, _, _, _, hrej, _, _, hfull, _⟩ := ingest_facts st ev u
  constructor
  · intro m i hok hdry
    obtain ⟨d0, _, hcr, hsk, herr, hsrc, _, _⟩ := hfull hdry m i hok
    exact ⟨hcr, hsrc, hsk, herr⟩
  · intro hm
    obtain ⟨_, hsk, herr⟩ := hrej dbErrMsg hm
    exact ⟨hsk, herr rfl⟩

/-- Witness for the amended C3: both branches at concrete runs, one
successful, one rejected by the injected source-INSERT fault. -/
theorem C3_stats_counters_witness :
    ((ingest_event_with_sources st0 ev0 none).state.stats.events_created
        = st0.stats.events_created + 1
      ∧ (ingest_event_with_sources st0 ev0 none).state.stats.sources_created
            + st0.store.sources.length
          = st0.stats.sources_created
            + (ingest_event_with_sources st0 ev0 none).state.store.sources.length
      ∧ (ingest_event_with_sources st0 ev0 none).state.stats.events_skipped
          = st0.stats.events_skipped
      ∧ (ingest_event_with_sources st0 ev0 none).state.stats.errors = st0.stats.errors)
    ∧ ((ingest_event_with_sources stF evSrc none).state.stats.events_skipped
          = stF.stats.events_skipped + 1
      ∧ (ingest_event_with_sources stF evSrc none).state.stats.errors
          = stF.stats.errors ++ [dbErrMsg]) :=
  ⟨(C3_stats_counters st0 ev0 none).1 "Created event with 0 sources" 0 rfl rfl,
   (C3_stats_counters stF evSrc none).2 rfl⟩

/-- The ingester over store0 whose icon map registers a placeholder for the
category war. -/
def st8 : Ingester := { st0 with category_icons := [("war", "/images/categories/war.svg")] }

/-- Claim C8: for every valid event ingested successfully with no supplied
(truthy) image URL whose category resolves to a registered non-empty
placeholder via the fallback lookup (exact match on the identifier, then
one retry on the parent segment of a dotted identifier, otherwise absent:
this is the definition of get_fallback_image), the persisted image URL
equals that placeholder and the fallback counter increments by exactly 1. -/
theorem C8_fallback_applied (st : Ingester) (ev : Value) (u : Option String)
    (d0 : Dict) (cat fb : String) (m : String) (i : Nat)
    (hdry : st.dry_run = false)
    (hev : ev = .vdict d0)
    (hcat : dictGetD d0 "category" .vnull = .vstr cat)
    (hraw : pyTruthy (dictGetD d0 "image_url" .vnull) = false)
    (hfb : get_fallback_image st.category_icons cat = some fb)
    (hfbne : fb ≠ "")
    (hok : (ingest_event_with_sources st ev u).outcome = Outcome.ok m i) :
    (∃ row, (ingest_event_with_sources st ev u).state.store.events
        = st.store.events ++ [row]
      ∧ row.image_url = .vstr fb)
    ∧ (ingest_event_with_sources st ev u).state.stats.image_urls_replaced
        = st.stats.image_urls_replaced + 1 := by
  obtain ⟨_, _, _, _, _, _, _, hfull, _⟩ := ingest_facts st ev u
  obtain ⟨d0b, hevb, _, _, _, _, hrep, row, hre, _, hrimg⟩ := hfull hdry m i hok
  have hdd : d0b = d0 := by
    rw [hev] at hevb
    injection hevb with h
    exact h.symm
  subst hdd
  refine ⟨⟨row, hre, ?_⟩, ?_⟩
  · rw [hrimg, hcat]
    simp [resolveImage, hraw, hfb, hfbne]
  · rw [hrep, hcat]
    simp [fallbackUsed, hraw, hfb, hfbne]

/-- Witness for C8: with the war placeholder icon registered, the valid
imageless candidate is persisted with the placeholder and the counter
rises to 1. -/
theorem C8_fallback_applied_witness :
    (∃ row, (ingest_event_with_sources st8 ev0 none).state.store.events
        = st8.store.events ++ [row]
      ∧ row.image_url = .vstr "/images/categories/war.svg")
    ∧ (ingest_event_with_sources st8 ev0 none).state.stats.image_urls_replaced
        = st8.stats.image_urls_replaced + 1 :=
  C8_fallback_applied st8 ev0 none
    [("title", .vstr "Battle"), ("unix_seconds", .vint 100),
     ("precision_level", .vstr "day"), ("latitude", .vint 10),
     ("longitude", .vint 20), ("category", .vstr "war")]
    "war" "/images/categories/war.svg" "Created event with 0 sources" 0
    rfl rfl rfl rfl rfl (by decide) rfl

/-- The valid candidate carrying three sources, the middle one missing both
url and title. -/
def ev9 : Value := .vdict
  [("title", .vstr "Battle"), ("unix_seconds", .vint 100),
   ("precision_level", .vstr "day"), ("latitude", .vint 10),
   ("longitude", .vint 20), ("category", .vstr "war"),
   ("sources", .vlist [.vdict [("url", .vstr "http://a")],
                       .vdict [("citation", .vstr "c")],
                       .vdict [("title", .vstr "T")]])]

/-- Counterexample to claim C9: an event with three sources of which one
fails source validation (missing both url and title) is NOT persisted with
two source rows; validate_event validates every source up front and the
whole event is rejected, nothing is written. -/
theorem C9_invalid_source_aborts_event_counterexample :
    (ingest_event_with_sources st0 ev9 none).outcome
      = Outcome.rejected
          "Event validation failed: sources[1]: must have url or title"
    ∧ (ingest_event_with_sources st0 ev9 none).state.store.events.length = 0
    ∧ (ingest_event_with_sources st0 ev9 none).state.store.sources.length = 0 := by
  exact ⟨rfl, rfl, rfl⟩

/-- Claim C9 as amended: an event whose sources list contains a source that
fails source validation (for example missing both url and title) is
rejected outright by the up-front validation — the event is not persisted
and no source row is written.  The insert-time re-validation skip path can
never reduce the source count of an event that passed validation, because
it repeats the same deterministic check on the unchanged sources. -/
theorem C9_invalid_source_rejects_event (st : Ingester) (u : Option String)
    (d0 : Dict) (xs : List Value) (s : Value)
    (hget : dictGet? d0 "sources" = some (.vlist xs))
    (hmem : s ∈ xs)
    (hf : (validate_source s "source").1 = false) :
    (∃ m, (ingest_event_with_sources st (.vdict d0) u).outcome = Outcome.rejected m)
    ∧ (ingest_event_with_sources st (.vdict d0) u).state.store.events
        = st.store.events
    ∧ (ingest_event_with_sources st (.vdict d0) u).state.store.sources
        = st.store.sources
    ∧ (ingest_event_with_sources st (.vdict d0) u).state.store.locations
        = st.store.locations := by
  obtain ⟨_, _, _, hvf, _, _, _, _, _⟩ := ingest_facts st (.vdict d0) u
  have hv : (validate_event (.vdict d0)).1 = false := by
    rw [validate_event_vdict]
    exact validate_event_dict_false_tail d0
      (event_sources_false_of_bad_source d0 xs s hget hmem hf)
  obtain ⟨hout, hstore, _, _, _, _, _⟩ := hvf hv
  exact ⟨⟨_, hout⟩, by rw [hstore], by rw [hstore], by rw [hstore]⟩

/-- Witness for the amended C9: the three-source candidate above is
rejected with nothing written. -/
theorem C9_invalid_source_rejects_event_witness :
    (∃ m, (ingest_event_with_sources st0 (.vdict
      [("title", .vstr "Battle"), ("unix_seconds", .vint 100),
       ("precision_level", .vstr "day"), ("latitude", .vint 10),
       ("longitude", .vint 20), ("category", .vstr "war"),
       ("sources", .vlist [.vdict [("url", .vstr "http://a")],
                           .vdict [("citation", .vstr "c")],
                           .vdict [("title", .vstr "T")]])]) none).outcome
        = Outcome.rejected m)
    ∧ (ingest_event_with_sources st0 (.vdict
      [("title", .vstr "Battle"), ("unix_seconds", .vint 100),
       ("precision_level", .vstr "day"), ("latitude", .vint 10),
       ("longitude", .vint 20), ("category", .vstr "war"),
       ("sources", .vlist [.vdict [("url", .vstr "http://a")],
                           .vdict [("citation", .vstr "c")],
                           .vdict [("title", .vstr "T")]])]) none).state.store.events
        = st0.store.events
    ∧ (ingest_event_with_sources st0 (.vdict
      [("title", .vstr "Battle"), ("unix_seconds", .vint 100),
       ("precision_level", .vstr "day"), ("latitude", .vint 10),
       ("longitude", .vint 20), ("category", .vstr "war"),
       ("sources", .vlist [.vdict [("url", .vstr "http://a")],
                           .vdict [("citation", .vstr "c")],
                           .vdict [("title", .vstr "T")]])]) none).state.store.sources
        = st0.store.sources
    ∧ (ingest_event_with_sources st0 (.vdict
      [("title", .vstr "Battle"), ("unix_seconds", .vint 100),
       ("precision_level", .vstr "day"), ("latitude", .vint 10),
       ("longitude", .vint 20), ("category", .vstr "war"),
       ("sources", .vlist [.vdict [("url", .vstr "http://a")],
                           .vdict [("citation", .vstr "c")],
                           .vdict [("title", .vstr "T")]])]) none).state.store.locations
        = st0.store.locations :=
  C9_invalid_source_rejects_event st0 none
    [("title", .vstr "Battle"), ("unix_seconds", .vint 100),
     ("precision_level", .vstr "day"), ("latitude", .vint 10),
     ("longitude", .vint 20), ("category", .vstr "war"),
     ("sources", .vlist [.vdict [("url", .vstr "http://a")],
                         .vdict [("citation", .vstr "c")],
                         .vdict [("title", .vstr "T")]])]
    [.vdict [("url", .vstr "http://a")], .vdict [("citation", .vstr "c")],
     .vdict [("title", .vstr "T")]]
    (.vdict [("citation", .vstr "c")])
    rfl (by simp) rfl

theorem popped_has_sources (d : Dict) :
    dictHas (dictRemove (dictRemove (dictRemove (dictRemove
      (dictRemove d "sources") "category") "latitude") "longitude") "location_name")
      "sources" = false := by
  rw [dictRemove_has_ne _ "location_name" _ (by decide),
      dictRemove_has_ne _ "longitude" _ (by decide),
      dictRemove_has_ne _ "latitude" _ (by decide),
      dictRemove_has_ne _ "category" _ (by decide)]
  exact dictRemove_has_self _ "sources"

theorem popped_has_longitude (d : Dict) :
    dictHas (dictRemove (dictRemove (dictRemove (dictRemove
      (dictRemove d "sources") "category") "latitude") "longitude") "location_name")
      "longitude" = false := by
  rw [dictRemove_has_ne _ "location_name" _ (by decide)]
  exact dictRemove_has_self _ "longitude"

theorem popped_has_location_name (d : Dict) :
    dictHas (dictRemove (dictRemove (dictRemove (dictRemove
      (dictRemove d "sources") "category") "latitude") "longitude") "location_name")
      "location_name" = false :=
  dictRemove_has_self _ "location_name"

/-- Claim C10: a non-dry-run ingest call that passes validation mutates its
input candidate record in place: the keys sources, category, latitude,
longitude and location_name are removed by the pops before persistence, so
the candidate is changed by the call (category was present and no longer
is) and re-submitting the very same record object fails validation with a
missing-required-field reason (the first such check to fail is the
latitude one). -/
theorem C10_mutates_candidate (st : Ingester) (u : Option String) (d0 : Dict)
    (hdry : st.dry_run = false)
    (hv : (validate_event (.vdict d0)).1 = true) :
    ∃ d5, (ingest_event_with_sources st (.vdict d0) u).event = .vdict d5
    ∧ dictHas d5 "sources" = false
    ∧ dictHas d5 "category" = false
    ∧ dictHas d5 "latitude" = false
    ∧ dictHas d5 "longitude" = false
    ∧ dictHas d5 "location_name" = false
    ∧ dictHas d0 "category" = true
    ∧ validate_event (.vdict d5)
        = (false, "Missing required field: latitude (all events must have geo point)") := by
  obtain ⟨_, _, _, _, _, _, _, _, hmut⟩ := ingest_facts st (.vdict d0) u
  have hev := hmut hdry hv d0 rfl
  obtain ⟨f1, f2, f3, f4, fcat, _, _, _⟩ :=
    validate_event_facts d0 (by rw [← validate_event_vdict]; exact hv)
  refine ⟨_, hev, popped_has_sources d0, popped_has_category d0,
    popped_has_latitude d0, popped_has_longitude d0, popped_has_location_name d0,
    fcat, ?_⟩
  rw [validate_event_vdict]
  unfold validate_event_dict
  rw [show (!dictHas (dictRemove (dictRemove (dictRemove (dictRemove
        (dictRemove d0 "sources") "category") "latitude") "longitude") "location_name")
        "title"
      || !pyTruthy (dictGetD (dictRemove (dictRemove (dictRemove (dictRemove
        (dictRemove d0 "sources") "category") "latitude") "longitude") "location_name")
        "title" .vnull)) = false by
    rw [(popped_keep_title d0).1, (popped_keep_title d0).2]
    simp [f1, f2]]
  rw [reqCheck_skip]
  rw [show (!dictHas (dictRemove (dictRemove (dictRemove (dictRemove
        (dictRemove d0 "sources") "category") "latitude") "longitude") "location_name")
        "unix_seconds") = false by
    rw [popped_keep_unix_seconds d0]
    simp [f3]]
  rw [reqCheck_skip]
  rw [show (!dictHas (dictRemove (dictRemove (dictRemove (dictRemove
        (dictRemove d0 "sources") "category") "latitude") "longitude") "location_name")
        "precision_level") = false by
    rw [popped_keep_precision d0]
    simp [f4]]
  rw [reqCheck_skip]
  rw [show (!dictHas (dictRemove (dictRemove (dictRemove (dictRemove
        (dictRemove d0 "sources") "category") "latitude") "longitude") "location_name")
        "latitude"
      || (dictGetD (dictRemove (dictRemove (dictRemove (dictRemove
        (dictRemove d0 "sources") "category") "latitude") "longitude") "location_name")
        "latitude" .vnull).isNone) = true by
    rw [popped_has_latitude d0]
    simp]
  rw [reqCheck_stop]

/-- Witness for C10: ingesting the valid candidate leaves a record missing
category, latitude and the other popped keys, which then fails
re-validation on its missing latitude. -/
theorem C10_mutates_candidate_witness :
    ∃ d5, (ingest_event_with_sources st0 (.vdict
      [("title", .vstr "Battle"), ("unix_seconds", .vint 100),
       ("precision_level", .vstr "day"), ("latitude", .vint 10),
       ("longitude", .vint 20), ("category", .vstr "war")]) none).event = .vdict d5
    ∧ dictHas d5 "sources" = false
    ∧ dictHas d5 "category" = false
    ∧ dictHas d5 "latitude" = false
    ∧ dictHas d5 "longitude" = false
    ∧ dictHas d5 "location_name" = false
    ∧ dictHas [("title", Value.vstr "Battle"), ("unix_seconds", Value.vint 100),
       ("precision_level", Value.vstr "day"), ("latitude", Value.vint 10),
       ("longitude", Value.vint 20), ("category", Value.vstr "war")] "category" = true
    ∧ validate_event (.vdict d5)
        = (false, "Missing required field: latitude (all events must have geo point)") :=
  C10_mutates_candidate st0 none
    [("title", .vstr "Battle"), ("unix_seconds", .vint 100),
     ("precision_level", .vstr "day"), ("latitude", .vint 10),
     ("longitude", .vint 20), ("category", .vstr "war")]
    rfl rfl
